import Mathlib

/-!
# FloatChat front-end

A shallow embedding of the client-side logic of the FloatChat front-end:

* `handleSendMessage` and the response dispatcher inside it (`Frontend/app/page.jsx`),
* the chart derivation and the view toggle of `Dashboard`
  (`Frontend/components/dashboard/Dashboard.jsx`),
* the click handler of `MapPanel` (`Frontend/components/dashboard/MapPanel.jsx`),
* the methods of `ApiService` (`Frontend/services/api.js`),
* the submit handlers of `ChatWindow` (`Frontend/components/chat/chat-window.jsx`).

JavaScript values that come out of `res.json()` are modelled by `JsVal`.  React state is
modelled by explicit state passing; a thrown JavaScript exception is an explicit
`thrown` component of the outcome, so that state updates made before the throw persist.

Modelling conventions.

* A number is carried by its canonical decimal rendering, i.e. the text that `String(n)`
  yields.  The dispatcher and the chart derivation never do arithmetic on a number; they
  only test it for truthiness and interpolate it into text.
* The property list of an object is kept in the order in which `Object.keys` enumerates
  it, with pairwise distinct keys.
* Only own properties, array and string indices and `length` are modelled.  Members
  inherited from a built-in prototype (for instance a table column named `toString` that
  a row does not itself define) are outside the model, as are strings with characters
  outside the Basic Multilingual Plane when such a string is indexed.
* The map position is the one place where the code computes with numbers; there a finite
  double is taken by its exact rational value (`Num`).
-/

namespace FloatChat

/-! ## JavaScript values -/

/-- A JavaScript value as produced by parsing a JSON response body, plus `undefined`
(the result of reading a property that is not there). -/
inductive JsVal where
  | undefined
  | null
  | bool (b : Bool)
  | num (lit : String)
  | str (s : String)
  | arr (items : List JsVal)
  | obj (fields : List (String × JsVal))

/-- The exception raised by the JavaScript runtime while it evaluates an expression.
Every such exception in the modelled code is a `TypeError`. -/
inductive JsError where
  | typeError
  deriving DecidableEq

namespace JsVal

/-- JavaScript truthiness (`ToBoolean`). -/
def truthy : JsVal → Bool
  | undefined => false
  | null => false
  | bool b => b
  | num lit => !(lit == "0" || lit == "NaN")
  | str s => !(s == "")
  | arr _ => true
  | obj _ => true

/-- The test `v === s` against a string literal `s`. -/
def strictEqStr : JsVal → String → Bool
  | str t, s => t == s
  | _, _ => false

/-- The operator `a || b`. -/
def orElse (a b : JsVal) : JsVal := if a.truthy then a else b

/-- The operator `a ?? b`. -/
def nullish : JsVal → JsVal → JsVal
  | undefined, b => b
  | null, b => b
  | a, _ => a

/-- Number of UTF-16 code units of a string, i.e. its JavaScript `length`. -/
def utf16Length (s : String) : Nat :=
  (s.data.map (fun c => if c.toNat < 65536 then 1 else 2)).sum

/-- A property key that is a canonical array index (`"0"`, `"1"`, `"2"`, ...). -/
def arrayIndex (k : String) : Option Nat :=
  if k.data.all Char.isDigit then
    let n := k.data.foldl (fun acc c => 10 * acc + (c.toNat - 48)) 0
    if toString n = k then some n else none
  else none

/-- Property read `v[k]`.  Reading a property of `null` or `undefined` throws. -/
def getProp (v : JsVal) (k : String) : Except JsError JsVal :=
  match v with
  | undefined => .error .typeError
  | null => .error .typeError
  | bool _ => .ok undefined
  | num _ => .ok undefined
  | str s =>
    if k = "length" then .ok (num (toString (utf16Length s)))
    else match arrayIndex k with
      | some n =>
        (match s.data.get? n with
          | some c => .ok (str (String.singleton c))
          | none => .ok undefined)
      | none => .ok undefined
  | arr items =>
    if k = "length" then .ok (num (toString items.length))
    else match arrayIndex k with
      | some n =>
        (match items.get? n with
          | some x => .ok x
          | none => .ok undefined)
      | none => .ok undefined
  | obj fields =>
    match fields.lookup k with
    | some x => .ok x
    | none => .ok undefined

/-- Optional chaining `v?.k`: `undefined` when `v` is `null` or `undefined`. -/
def optChain (v : JsVal) (k : String) : JsVal :=
  match getProp v k with
  | .ok x => x
  | .error _ => undefined

/-- The call `Object.keys(v)`.  It throws on `null` and `undefined`. -/
def objectKeys : JsVal → Except JsError (List String)
  | undefined => .error .typeError
  | null => .error .typeError
  | bool _ => .ok []
  | num _ => .ok []
  | str s => .ok ((List.range (utf16Length s)).map toString)
  | arr items => .ok ((List.range items.length).map toString)
  | obj fields => .ok (fields.map Prod.fst)

mutual
/-- String conversion `String(v)`, as performed by template-literal interpolation. -/
def toStr : JsVal → String
  | undefined => "undefined"
  | null => "null"
  | bool b => if b then "true" else "false"
  | num lit => lit
  | str s => s
  | arr items => joinItems items
  | obj _ => "[object Object]"
termination_by structural v => v
/-- The text of `Array.prototype.join(",")`: `null` and `undefined` elements render
as the empty string. -/
def joinItems : List JsVal → String
  | [] => ""
  | x :: rest =>
    (match x with
      | undefined => ""
      | null => ""
      | v => toStr v) ++
    (match rest with
      | [] => ""
      | _ => "," ++ joinItems rest)
termination_by structural l => l
end

end JsVal

open JsVal

/-! ## Chat state (`ChatApp` in `page.jsx`) -/

/-- A transcript entry. -/
structure Message where
  id : String
  content : JsVal
  sender : String
  timestamp : String

/-- The React state of `ChatApp`. -/
structure ChatState where
  messages : List Message
  loading : Bool
  isSplitView : Bool
  isSidebarVisible : Bool
  dashData : JsVal

/-- The `useState` initial values of `ChatApp`. -/
def ChatState.initial : ChatState :=
  { messages := [], loading := false, isSplitView := false, isSidebarVisible := true,
    dashData := arr [] }

/-- What the code reads from its surroundings: the clock and the build-time
configuration.  `clock k` is the value of the `k`-th reading of the clock (milliseconds
since the epoch) and `toISOString` renders such a reading as `Date.prototype.toISOString`
does. -/
structure Env where
  clock : Nat → Nat
  toISOString : Nat → String
  apiUrl : Option String

/-- The result of running a piece of code that may throw: the state it left behind and
the exception, if any. -/
structure Outcome where
  state : ChatState
  thrown : Option JsError

/-- The state update `setMessages((prev) => [...prev, m])`. -/
def ChatState.push (s : ChatState) (m : Message) : ChatState :=
  { s with messages := s.messages ++ [m] }

/-- A bot entry built at clock readings `k` (for the id, offset by `off`) and `k + 1`
(for the timestamp). -/
def botMessage (env : Env) (k off : Nat) (content : JsVal) : Message :=
  { id := toString (env.clock k + off), content := content, sender := "bot",
    timestamp := env.toISOString (env.clock (k + 1)) }

/-! ### Table branch -/

/-- The candidate condition columns, `possibleConds`. -/
def possibleConds : List String := ["temperature", "salinity", "pressure"]

/-- The list `condCols`: the condition columns that are present. -/
def condCols (columns : List String) : List String :=
  possibleConds.filter (fun c => columns.contains c)

/-- The list `preferredOrder`. -/
def preferredOrder (columns : List String) : List String :=
  ["float_id"] ++ condCols columns ++ ["latitude", "longitude", "depth_min", "depth_max"]

/-- The list `orderedColumns`. -/
def orderedColumns (columns : List String) : List String :=
  (preferredOrder columns).filter (fun c => columns.contains c) ++
    columns.filter (fun c => !(preferredOrder columns).contains c)

/-- The value `rows`, i.e. `data.data || []`, once `data.data` has been read. -/
def tableRows (d : JsVal) : JsVal := orElse d (arr [])

/-- The list `columns`, i.e. `rows.length ? Object.keys(rows[0]) : []`. -/
def tableColumns (rows : JsVal) : Except JsError (List String) :=
  match getProp rows "length" with
  | .error e => .error e
  | .ok len =>
    if len.truthy then
      match getProp rows "0" with
      | .error e => .error e
      | .ok first => objectKeys first
    else .ok []

/-- The column order the table branch renders for the envelope `data`. -/
def tableColumnOrder (data : JsVal) : Except JsError (List String) :=
  match getProp data "data" with
  | .error e => .error e
  | .ok d =>
    match tableColumns (tableRows d) with
    | .error e => .error e
    | .ok columns => .ok (orderedColumns columns)

/-- One header cell. -/
def headerCell (c : String) : String :=
  "<th class=\"text-left font-medium border-b p-2\">" ++ c ++ "</th>"

/-- One body cell, showing `r[c] ?? ''`. -/
def bodyCell (r : JsVal) (c : String) : Except JsError String :=
  match getProp r c with
  | .error e => .error e
  | .ok v => .ok ("<td class=\"border-b p-2 whitespace-nowrap\">" ++
      toStr (nullish v (str "")) ++ "</td>")

/-- The cells of one row, `orderedColumns.map(c => ...)`, left to right. -/
def bodyCells (r : JsVal) : List String → Except JsError (List String)
  | [] => .ok []
  | c :: cs =>
    match bodyCell r c with
    | .error e => .error e
    | .ok x =>
      match bodyCells r cs with
      | .error e => .error e
      | .ok xs => .ok (x :: xs)

/-- One body row. -/
def bodyRow (cols : List String) (r : JsVal) : Except JsError String :=
  match bodyCells r cols with
  | .error e => .error e
  | .ok cells =>
    .ok ("\n                  <tr>\n                    " ++ String.join cells ++
      "\n                  </tr>\n                ")

/-- The rows `rows.map(r => ...)` over the elements of an array, top to bottom. -/
def bodyRowsOf (cols : List String) : List JsVal → Except JsError (List String)
  | [] => .ok []
  | r :: rs =>
    match bodyRow cols r with
    | .error e => .error e
    | .ok x =>
      match bodyRowsOf cols rs with
      | .error e => .error e
      | .ok xs => .ok (x :: xs)

/-- The call `rows.map(r => ...)`: only an array has a `map` method. -/
def bodyRows (cols : List String) : JsVal → Except JsError (List String)
  | arr items => bodyRowsOf cols items
  | _ => .error .typeError

/-- The markup around the header cells and the body rows. -/
def tableShell (header body : String) : String :=
  "\n          <div class=\"overflow-x-auto w-full\">\n            <table class=\"w-full text-sm border-collapse\">\n              <thead>\n                <tr>\n                  " ++
  header ++
  "\n                </tr>\n              </thead>\n              <tbody>\n                " ++
  body ++
  "\n              </tbody>\n            </table>\n          </div>\n        "

/-- The string `tableHtml` for the rows `rows`. -/
def tableHtml (rows : JsVal) : Except JsError String :=
  match tableColumns rows with
  | .error e => .error e
  | .ok columns =>
    match bodyRows (orderedColumns columns) rows with
    | .error e => .error e
    | .ok body =>
      .ok (tableShell (String.join ((orderedColumns columns).map headerCell))
        (String.join body))

/-! ### The dispatcher -/

/-- The fixed acknowledgement of a visualization envelope. -/
def visualizationAck : String :=
  "Received data for visualization. Opened dashboard (filtered to requested condition)."

/-- The branch on `data.type` of `handleSendMessage` (lines 74 to 140 of `page.jsx`),
run on the parsed response body `data` in state `s`. -/
def dispatchEnvelope (env : Env) (data : JsVal) (s : ChatState) : Outcome :=
  match getProp data "type" with
  | .error e => { state := s, thrown := some e }
  | .ok ty =>
    if strictEqStr ty "answer" then
      match getProp data "answer" with
      | .error e => { state := s, thrown := some e }
      | .ok answer => { state := s.push (botMessage env 0 1 answer), thrown := none }
    else if strictEqStr ty "visualization" then
      let s1 := { s with isSplitView := true }
      match getProp data "data" with
      | .error e => { state := s1, thrown := some e }
      | .ok d =>
        let s2 := { s1 with dashData := orElse d (arr []) }
        match getProp data "answer" with
        | .error e => { state := s2, thrown := some e }
        | .ok answer =>
          if answer.truthy then
            { state := (s2.push (botMessage env 0 1 answer)).push
                (botMessage env 2 2 (str visualizationAck)),
              thrown := none }
          else
            { state := s2.push (botMessage env 0 2 (str visualizationAck)), thrown := none }
    else if strictEqStr ty "table" then
      match getProp data "data" with
      | .error e => { state := s, thrown := some e }
      | .ok d =>
        match tableHtml (tableRows d) with
        | .error e => { state := s, thrown := some e }
        | .ok html => { state := s.push (botMessage env 0 1 (str html)), thrown := none }
    else { state := s, thrown := none }

/-- The state after the dispatcher has run inside the `try` of `handleSendMessage`: the
`catch` only logs to the console, so the state reached is kept whether or not the
dispatcher threw. -/
def dispatched (env : Env) (data : JsVal) (s : ChatState) : ChatState :=
  (dispatchEnvelope env data s).state

/-! ## Dashboard (`Dashboard.jsx`) -/

/-- One entry of the `yAxis` list. -/
structure YAxis where
  type : String
  name : String
  formatter : String
  deriving DecidableEq

/-- One entry of the `series` list.  The `tooltip.valueFormatter` closure is carried by
the unit it captures, see `valueFormatter`. -/
structure Series where
  name : String
  type : String
  yAxisIndex : Option Nat
  tooltipUnit : String
  data : List JsVal

/-- The closure `v => (v === null || v === undefined ? '' : v + ' ' + unit)`. -/
def valueFormatter (unit : String) : JsVal → String
  | undefined => ""
  | null => ""
  | v => toStr v ++ " " ++ unit

/-- The only entry of the `xAxis` list. -/
structure XAxis where
  type : String
  data : List String
  axisPointerType : String
  deriving DecidableEq

/-- The object stored under `chartOptions.bar`.  A key that the object literal does not
have is `none`.  The keys `tooltip`, `toolbox`, `grid` and `dataZoom` hold plain data and
are kept as values. -/
structure BarOption where
  title : String
  tooltip : Option JsVal
  toolbox : Option JsVal
  grid : Option JsVal
  xAxis : Option (List XAxis)
  yAxis : Option (List YAxis)
  dataZoom : Option JsVal
  series : Option (List Series)

/-- The option `{ title: { text: 'No data to visualize' } }`. -/
def noDataOption : BarOption :=
  { title := "No data to visualize", tooltip := none, toolbox := none, grid := none,
    xAxis := none, yAxis := none, dataZoom := none, series := none }

/-- The value `src`: `Array.isArray(data) && data.length ? data : []`. -/
def chartSource : JsVal → List JsVal
  | arr items => if items.length ≠ 0 then items else []
  | _ => []

/-- The keys `Object.keys(item?.measurements || {})` of one record.  The operand is
truthy, so `Object.keys` does not throw. -/
def measurementKeys (item : JsVal) : List String :=
  match objectKeys (orElse (optChain item "measurements") (obj [])) with
  | .ok ks => ks
  | .error _ => []

/-- The call `set.add(k)` on a set kept in insertion order. -/
def setAdd (set : List String) (k : String) : List String :=
  if set.contains k then set else set ++ [k]

/-- The set `presentMetrics`. -/
def presentMetrics (src : List JsVal) : List String :=
  src.foldl (fun set item => (measurementKeys item).foldl setAdd set) []

/-- The list `statOrder` (also the literal `['min', 'max', 'avg']` in `conds`). -/
def statOrder : List String := ["min", "max", "avg"]

/-- The list `conds`. -/
def conds (src : List JsVal) : List String :=
  ["temperature", "salinity", "pressure"].filter (fun c =>
    statOrder.any (fun s => (presentMetrics src).contains (c ++ "_" ++ s)))

/-- The lookup `units[c]`, rendered into a template literal. -/
def units (c : String) : String :=
  if c = "temperature" then "°C"
  else if c = "salinity" then "ppt"
  else if c = "pressure" then "dbar"
  else "undefined"

/-- The expression `w.charAt(0).toUpperCase() + w.slice(1)`, for a word whose first
letter is ASCII. -/
def capitalize (w : String) : String :=
  match w.data with
  | [] => ""
  | c :: cs => String.mk (c.toUpper :: cs)

/-- The axis pushed for condition `c`. -/
def axisFor (c : String) : YAxis :=
  { type := "value", name := capitalize c ++ " (" ++ units c ++ ")",
    formatter := "\x7bvalue\x7d " ++ units c }

/-- The list `yAxes`. -/
def yAxes (src : List JsVal) : List YAxis := (conds src).map axisFor

/-- The object `condToAxis`, as the list of its entries.  No condition occurs twice in
`conds`, so every key is assigned once. -/
def condToAxis (src : List JsVal) : List (String × Nat) :=
  (conds src).enum.map (fun p => (p.2, p.1))

/-- The series pushed for statistic `stat` and condition `c`. -/
def seriesFor (src : List JsVal) (stat c : String) : Series :=
  { name := capitalize c ++ " " ++ capitalize stat,
    type := if stat = "avg" then "line" else "bar",
    yAxisIndex := (condToAxis src).lookup c,
    tooltipUnit := units c,
    data := src.map (fun item =>
      nullish (optChain (optChain item "measurements") (c ++ "_" ++ stat)) null) }

/-- The list `series`. -/
def series (src : List JsVal) : List Series :=
  statOrder.flatMap (fun stat =>
    (conds src).filterMap (fun c =>
      if (presentMetrics src).contains (c ++ "_" ++ stat) then some (seriesFor src stat c)
      else none))

/-- The call `s.split(sep)` for a one-character separator, on the characters of `s`. -/
def splitChars (sep : Char) : List Char → List (List Char)
  | [] => [[]]
  | c :: cs =>
    if c = sep then [] :: splitChars sep cs
    else
      match splitChars sep cs with
      | [] => [[c]]
      | p :: ps => (c :: p) :: ps

/-- The expression `dt.split(sep)[0]`. -/
def splitFirst (sep : Char) (dt : String) : String :=
  String.mk ((splitChars sep dt.data).headD [])

/-- The x-axis category of one record. -/
def category (item : JsVal) : String :=
  match orElse (optChain item "datetime") (str "") with
  | str dt =>
    if utf16Length dt ≠ 0 then
      let d := if dt.data.contains 'T' then splitFirst 'T' dt else splitFirst ' ' dt
      if d ≠ "" then d else dt
    else "Float " ++ toStr (optChain item "float_id")
  | _ => "Float " ++ toStr (optChain item "float_id")

/-- The list `categories`. -/
def categories (src : List JsVal) : List String := src.map category

/-- The fallback axis used when `yAxes` is empty. -/
def defaultAxis : YAxis := { type := "value", name := "Value", formatter := "\x7bvalue\x7d" }

/-- The `tooltip` key of the chart option. -/
def chartTooltip : JsVal :=
  obj [("trigger", str "axis"),
    ("axisPointer", obj [("type", str "cross"), ("crossStyle", obj [("color", str "#999")])])]

/-- The `toolbox` key of the chart option. -/
def chartToolbox : JsVal :=
  obj [("feature", obj [
      ("dataView", obj [("show", bool true), ("readOnly", bool false)]),
      ("magicType", obj [("show", bool true), ("type", arr [str "line", str "bar", str "pie"])]),
      ("restore", obj [("show", bool true)]),
      ("saveAsImage", obj [("show", bool true)]),
      ("dataZoom", obj [("yAxisIndex", str "none")])]),
    ("orient", str "vertical"), ("right", num "10"), ("top", str "center")]

/-- The `grid` key of the chart option. -/
def chartGrid : JsVal :=
  obj [("top", str "30%"), ("left", str "5%"), ("right", str "15%"), ("bottom", str "20%"),
    ("containLabel", bool true)]

/-- The `dataZoom` key of the chart option; `startValue` is `categories[0]`. -/
def chartDataZoom (cats : List String) : JsVal :=
  arr [obj [("startValue", match cats.head? with
        | some c => str c
        | none => undefined),
      ("height", num "20"), ("bottom", str "40px")],
    obj [("type", str "inside")]]

/-- The body of the `useEffect` of `Dashboard`: the option stored under
`chartOptions.bar` for the `data` prop. -/
def deriveChart (data : JsVal) : BarOption :=
  let src := chartSource data
  if src.length = 0 then noDataOption
  else
    { title := "Requested Conditions",
      tooltip := some chartTooltip,
      toolbox := some chartToolbox,
      grid := some chartGrid,
      xAxis := some [{ type := "category", data := categories src, axisPointerType := "shadow" }],
      yAxis := some (if (yAxes src).length ≠ 0 then yAxes src else [defaultAxis]),
      dataZoom := some (chartDataZoom (categories src)),
      series := some (series src) }

/-! ## Map click (`MapPanel.jsx`) -/

/-- A finite double-precision number, by its exact value `± num / den`.  The sign is kept
apart so that negative zero is a value of the type. -/
structure Num where
  neg : Bool
  num : Nat
  den : Nat
  den_pos : 0 < den

/-- The exact value of a number. -/
def Num.toRat (x : Num) : ℚ := (if x.neg then -1 else 1) * ((x.num : ℚ) / (x.den : ℚ))

/-- The test `x < 0`. -/
def Num.isNegative (x : Num) : Bool := x.neg && x.num != 0

/-- The integer `n` for which `n / 10 ^ f - |x|` is as close to zero as possible, the
larger one when there are two. -/
def Num.scaledRound (f : Nat) (x : Num) : Nat := (2 * x.num * 10 ^ f + x.den) / (2 * x.den)

/-- The digit string `m` with a decimal point before its last `f` digits, zero-padded on
the left to at least `f + 1` digits. -/
def insertPoint (f : Nat) (m : List Char) : List Char :=
  if f ≠ 0 then
    let m := if m.length ≤ f then List.replicate (f + 1 - m.length) '0' ++ m else m
    m.take (m.length - f) ++ '.' :: m.drop (m.length - f)
  else m

/-- The digits of `n` with `f` of them after the decimal point. -/
def pointed (f n : Nat) : List Char := insertPoint f (toString n).data

/-- The method `Number.prototype.toFixed(f)` on a finite number.  For a magnitude of
`10 ^ 21` or more the built-in returns the general number-to-string conversion, which is
taken as the parameter `numberToString`. -/
def toFixed (numberToString : Num → String) (f : Nat) (x : Num) : String :=
  if 10 ^ 21 * x.den ≤ x.num then numberToString x
  else (if x.isNegative then "-" else "") ++ String.mk (pointed f (x.scaledRound f))

/-- What the click handler acts on: the marker and popup of the map, and the chat input
reachable through `window.__setChatInput` (registered while `ChatWindow` is mounted). -/
structure ClickTarget where
  clickMarker : Option (Num × Num)
  popup : Option String
  setterRegistered : Bool
  inputMessage : String
  programmaticSet : Bool

/-- The `click` handler registered on the map, for the event position `(lat, lng)`. -/
def onMapClick (numberToString : Num → String) (lat lng : Num) (t : ClickTarget) :
    ClickTarget :=
  let t1 := { t with
    clickMarker := some (lat, lng),
    popup := some ("Lat: " ++ toFixed numberToString 4 lat ++ ", Lon: " ++
      toFixed numberToString 4 lng) }
  if t1.setterRegistered then
    { t1 with
      programmaticSet := true,
      inputMessage := "lat " ++ toFixed numberToString 6 lat ++ " lon " ++
        toFixed numberToString 6 lng }
  else t1

/-! ## Backend client (`api.js`) -/

/-- The session storage of the browser: the stored key/value pairs. -/
abbrev Storage := List (String × String)

/-- The call `sessionStorage.getItem(k)`; `none` is `null`. -/
def Storage.getItem (st : Storage) (k : String) : Option String := st.lookup k

/-- The method `ApiService.getAuthHeaders`: spreading `token && {...}` adds the
`Authorization` entry only for a truthy token. -/
def getAuthHeaders (st : Storage) : List (String × String) :=
  [("Content-Type", "application/json")] ++
    (match st.getItem "auth_token" with
      | some token => if token ≠ "" then [("Authorization", "Bearer " ++ token)] else []
      | none => [])

/-- A failure of an asynchronous call: what a promise rejects with, or what a `catch`
receives. -/
inductive Failure where
  | error (message : String)
  | network
  | syntaxError
  | thrown (e : JsError)
  deriving DecidableEq

/-- The arguments of a call to `fetch`.  The body is the value handed to
`JSON.stringify`, `none` when the call gives no body; the method is `GET` when the call
gives none. -/
structure Request where
  url : String
  method : String
  headers : List (String × String)
  body : Option JsVal

/-- A response of the backend: its status code and its body, `none` when the body is not
valid JSON. -/
structure Response where
  status : Nat
  body : Option JsVal

/-- The flag `response.ok`: the status is in the range 200 to 299. -/
def Response.ok (r : Response) : Bool := decide (200 ≤ r.status) && decide (r.status ≤ 299)

/-- The call `response.json()`; it rejects with a `SyntaxError` on a body that is not
JSON. -/
def Response.json (r : Response) : Except Failure JsVal :=
  match r.body with
  | some v => .ok v
  | none => .error .syntaxError

/-- The settlement of the promise that `fetch` returns: rejected on a transport error,
fulfilled with a response otherwise. -/
inductive FetchResult where
  | rejected
  | responded (r : Response)

/-- The network: what `fetch` settles to for a request. -/
abbrev Network := Request → FetchResult

/-- The constant `API_BASE_URL`, also the local `base` of `handleSendMessage`:
`process.env.NEXT_PUBLIC_API_URL || "http://localhost:8000"`. -/
def apiBaseUrl (env : Env) : String :=
  match env.apiUrl with
  | some u => if u ≠ "" then u else "http://localhost:8000"
  | none => "http://localhost:8000"

namespace ApiService

/-- The method `login`. -/
def login (env : Env) (net : Network) (data : JsVal) : Except Failure JsVal :=
  match net { url := apiBaseUrl env ++ "/auth/login", method := "POST",
              headers := [("Content-Type", "application/json")], body := some data } with
  | .rejected => .error .network
  | .responded response =>
    if !response.ok then .error (.error "Login failed") else response.json

/-- The method `signup`. -/
def signup (env : Env) (net : Network) (data : JsVal) : Except Failure JsVal :=
  match net { url := apiBaseUrl env ++ "/auth/signup", method := "POST",
              headers := [("Content-Type", "application/json")], body := some data } with
  | .rejected => .error .network
  | .responded response =>
    if !response.ok then .error (.error "Signup failed") else response.json

/-- The method `getChatHistory`. -/
def getChatHistory (env : Env) (st : Storage) (net : Network) : Except Failure JsVal :=
  match net { url := apiBaseUrl env ++ "/chat/history", method := "GET",
              headers := getAuthHeaders st, body := none } with
  | .rejected => .error .network
  | .responded response =>
    if !response.ok then .error (.error "Failed to fetch chat history") else response.json

/-- The request that the method `sendMessage` issues. -/
def sendMessageRequest (env : Env) (st : Storage) (data : JsVal) : Request :=
  { url := apiBaseUrl env ++ "/chat/send", method := "POST", headers := getAuthHeaders st,
    body := some data }

/-- The method `sendMessage`. -/
def sendMessage (env : Env) (st : Storage) (net : Network) (data : JsVal) :
    Except Failure JsVal :=
  match net (sendMessageRequest env st data) with
  | .rejected => .error .network
  | .responded response =>
    if !response.ok then .error (.error "Failed to send message") else response.json

/-- The method `getUserProfile`. -/
def getUserProfile (env : Env) (st : Storage) (net : Network) : Except Failure JsVal :=
  match net { url := apiBaseUrl env ++ "/user/profile", method := "GET",
              headers := getAuthHeaders st, body := none } with
  | .rejected => .error .network
  | .responded response =>
    if !response.ok then .error (.error "Failed to fetch user profile") else response.json

/-- The method `updateUserProfile`. -/
def updateUserProfile (env : Env) (st : Storage) (net : Network) (data : JsVal) :
    Except Failure JsVal :=
  match net { url := apiBaseUrl env ++ "/user/profile", method := "PUT",
              headers := getAuthHeaders st, body := some data } with
  | .rejected => .error .network
  | .responded response =>
    if !response.ok then .error (.error "Failed to update user profile") else response.json

/-- The method `getConversations`. -/
def getConversations (env : Env) (st : Storage) (net : Network) : Except Failure JsVal :=
  match net { url := apiBaseUrl env ++ "/chat/conversations", method := "GET",
              headers := getAuthHeaders st, body := none } with
  | .rejected => .error .network
  | .responded response =>
    if !response.ok then .error (.error "Failed to fetch conversations") else response.json

/-- The method `createConversation`. -/
def createConversation (env : Env) (st : Storage) (net : Network) (title : JsVal) :
    Except Failure JsVal :=
  match net { url := apiBaseUrl env ++ "/chat/conversations", method := "POST",
              headers := getAuthHeaders st, body := some (obj [("title", title)]) } with
  | .rejected => .error .network
  | .responded response =>
    if !response.ok then .error (.error "Failed to create conversation") else response.json

/-- The method `deleteConversation`; it returns nothing. -/
def deleteConversation (env : Env) (st : Storage) (net : Network) (conversationId : JsVal) :
    Except Failure JsVal :=
  match net { url := apiBaseUrl env ++ "/chat/conversations/" ++ toStr conversationId,
              method := "DELETE", headers := getAuthHeaders st, body := none } with
  | .rejected => .error .network
  | .responded response =>
    if !response.ok then .error (.error "Failed to delete conversation") else .ok undefined

/-- The method `getConversationMessages`. -/
def getConversationMessages (env : Env) (st : Storage) (net : Network)
    (conversationId : JsVal) : Except Failure JsVal :=
  match net { url := apiBaseUrl env ++ "/chat/conversations/" ++ toStr conversationId ++
                "/messages",
              method := "GET", headers := getAuthHeaders st, body := none } with
  | .rejected => .error .network
  | .responded response =>
    if !response.ok then .error (.error "Failed to fetch conversation messages")
    else response.json

/-- The method `refreshToken`. -/
def refreshToken (env : Env) (st : Storage) (net : Network) : Except Failure JsVal :=
  match net { url := apiBaseUrl env ++ "/auth/refresh", method := "POST",
              headers := getAuthHeaders st, body := none } with
  | .rejected => .error .network
  | .responded response =>
    if !response.ok then .error (.error "Failed to refresh token") else response.json

/-- The method `logout`; it returns nothing. -/
def logout (env : Env) (st : Storage) (net : Network) : Except Failure JsVal :=
  match net { url := apiBaseUrl env ++ "/auth/logout", method := "POST",
              headers := getAuthHeaders st, body := none } with
  | .rejected => .error .network
  | .responded response =>
    if !response.ok then .error (.error "Failed to logout") else .ok undefined

end ApiService

/-- A call of a method of `ApiService`, with its arguments. -/
inductive ApiCall where
  | login (data : JsVal)
  | signup (data : JsVal)
  | getChatHistory
  | sendMessage (data : JsVal)
  | getUserProfile
  | updateUserProfile (data : JsVal)
  | getConversations
  | createConversation (title : JsVal)
  | deleteConversation (conversationId : JsVal)
  | getConversationMessages (conversationId : JsVal)
  | refreshToken
  | logout

/-- Running a call of `ApiService`. -/
def ApiCall.run (env : Env) (st : Storage) (net : Network) : ApiCall → Except Failure JsVal
  | .login data => ApiService.login env net data
  | .signup data => ApiService.signup env net data
  | .getChatHistory => ApiService.getChatHistory env st net
  | .sendMessage data => ApiService.sendMessage env st net data
  | .getUserProfile => ApiService.getUserProfile env st net
  | .updateUserProfile data => ApiService.updateUserProfile env st net data
  | .getConversations => ApiService.getConversations env st net
  | .createConversation title => ApiService.createConversation env st net title
  | .deleteConversation conversationId => ApiService.deleteConversation env st net conversationId
  | .getConversationMessages conversationId =>
    ApiService.getConversationMessages env st net conversationId
  | .refreshToken => ApiService.refreshToken env st net
  | .logout => ApiService.logout env st net

/-! ## Sending a message (`handleSendMessage` in `page.jsx`) -/

/-- The request that `handleSendMessage` issues for the text `content`. -/
def chatSendRequest (env : Env) (content : String) : Request :=
  { url := apiBaseUrl env ++ "/chat/send", method := "POST",
    headers := [("Content-Type", "application/json")],
    body := some (obj [("message", str content)]) }

/-- The entry `userMessage`, built at the first two clock readings. -/
def userMessage (env : Env) (content : String) : Message :=
  { id := toString (env.clock 0), content := str content, sender := "user",
    timestamp := env.toISOString (env.clock 1) }

/-- The result of `handleSendMessage`: the state it leaves and what its `catch` wrote to
the console, if anything. -/
structure SendOutcome where
  state : ChatState
  logged : Option Failure

/-- The state update `setLoading(b)`. -/
def ChatState.setLoading (s : ChatState) (b : Bool) : ChatState := { s with loading := b }

/-- The function `handleSendMessage`.  The dispatcher reads the clock after the two
readings of `userMessage`. -/
def handleSendMessage (env : Env) (net : Network) (content : String) (s : ChatState) :
    SendOutcome :=
  let s1 := (s.push (userMessage env content)).setLoading true
  match net (chatSendRequest env content) with
  | .rejected => { state := s1.setLoading false, logged := some .network }
  | .responded res =>
    if !res.ok then { state := s1.setLoading false, logged := some (.error "Backend error") }
    else
      match res.json with
      | .error e => { state := s1.setLoading false, logged := some e }
      | .ok data =>
        let out := dispatchEnvelope { env with clock := fun k => env.clock (k + 2) } data s1
        { state := out.state.setLoading false, logged := out.thrown.map Failure.thrown }

/-! ## Dashboard view toggle (`Dashboard.handleToggleView`) -/

/-- The initial value of the `view` state of `Dashboard`. -/
def initialView : String := "charts"

/-- The function `handleToggleView`: the new view, and whether the `onSwitchToMap`
callback was called (`onSwitchToMap` tells whether the prop is given). -/
def handleToggleView (onSwitchToMap : Bool) (view : String) : String × Bool :=
  let newView := if view = "charts" then "map" else "charts"
  (newView, decide (newView = "map") && onSwitchToMap)

/-! ## Chat input (`chat-window.jsx`) -/

/-- The characters that `String.prototype.trim` removes: white space and line
terminators. -/
def isTrimmable (c : Char) : Bool :=
  let n := c.toNat
  n == 9 || n == 10 || n == 11 || n == 12 || n == 13 || n == 32 || n == 160 || n == 5760 ||
    (decide (8192 ≤ n) && decide (n ≤ 8202)) || n == 8232 || n == 8233 || n == 8239 ||
    n == 8287 || n == 12288 || n == 65279

/-- The method `String.prototype.trim`. -/
def jsTrim (s : String) : String :=
  String.mk ((s.data.dropWhile isTrimmable).reverse.dropWhile isTrimmable).reverse

/-- The state of `ChatWindow` that a submit acts on. -/
structure ChatInput where
  inputMessage : String
  isTyping : Bool

/-- The result of a submit: the argument of the call to `onSendMessage`, if it was
called, and the state left behind. -/
structure SubmitOutcome where
  sent : Option String
  state : ChatInput

/-- The function `handleSubmit`, for the `loading` prop and the settlement of the awaited
`onSendMessage` (`resolves` is false when it rejects, in which case the input is not
cleared). -/
def handleSubmit (resolves : Bool) (loading : Bool) (st : ChatInput) : SubmitOutcome :=
  if jsTrim st.inputMessage = "" || loading then { sent := none, state := st }
  else
    { sent := some (jsTrim st.inputMessage),
      state := { inputMessage := if resolves then "" else st.inputMessage,
                 isTyping := false } }

/-- The function `window.__submitChatInput`: it clears the input before sending. -/
def submitChatInput (loading : Bool) (st : ChatInput) : SubmitOutcome :=
  if jsTrim st.inputMessage = "" || loading then { sent := none, state := st }
  else
    { sent := some (jsTrim st.inputMessage),
      state := { inputMessage := "", isTyping := false } }

/-! ## Definitions that follow the wording of the specification -/

/-- The fixed preference list of table columns. -/
def preferredColumns : List String :=
  ["float_id", "temperature", "salinity", "pressure", "latitude", "longitude",
    "depth_min", "depth_max"]

/-- The column order the specification describes: the preferred columns that are keys of
the first record, in the fixed order, followed by the remaining keys in their original
order. -/
def specColumnOrder (keys : List String) : List String :=
  preferredColumns.filter (fun c => decide (c ∈ keys)) ++
    keys.filter (fun c => decide (c ∉ preferredColumns))

/-- A record whose `measurements` object has the key `k`. -/
def recordHasKey (item : JsVal) (k : String) : Bool :=
  match item with
  | obj fields =>
    match fields.lookup "measurements" with
    | some (obj ms) => (ms.map Prod.fst).contains k
    | _ => false
  | _ => false

/-- Some record has the measurement key `c_stat`. -/
def metricPresent (src : List JsVal) (c stat : String) : Bool :=
  src.any (fun item => recordHasKey item (c ++ "_" ++ stat))

/-- A condition is present when some record has its `min`, `max` or `avg` key. -/
def conditionPresent (src : List JsVal) (c : String) : Bool :=
  metricPresent src c "min" || metricPresent src c "max" || metricPresent src c "avg"

/-- The conditions, in their fixed order. -/
def conditionOrder : List String := ["temperature", "salinity", "pressure"]

/-- The nine metrics `(condition, statistic)`, in the order in which their series are
emitted. -/
def metricOrder : List (String × String) :=
  [("temperature", "min"), ("salinity", "min"), ("pressure", "min"),
   ("temperature", "max"), ("salinity", "max"), ("pressure", "max"),
   ("temperature", "avg"), ("salinity", "avg"), ("pressure", "avg")]

/-- The value axis of a condition, named with its unit. -/
def unitAxis (c : String) : YAxis :=
  if c = "temperature" then
    { type := "value", name := "Temperature (°C)", formatter := "\x7bvalue\x7d °C" }
  else if c = "salinity" then
    { type := "value", name := "Salinity (ppt)", formatter := "\x7bvalue\x7d ppt" }
  else
    { type := "value", name := "Pressure (dbar)", formatter := "\x7bvalue\x7d dbar" }

/-- The series type of a statistic: a bar for `min` and `max`, a line for `avg`. -/
def seriesKind (stat : String) : String :=
  if stat = "min" then "bar" else if stat = "max" then "bar" else "line"

/-- The display word of a condition or a statistic. -/
def displayWord (w : String) : String :=
  if w = "temperature" then "Temperature"
  else if w = "salinity" then "Salinity"
  else if w = "pressure" then "Pressure"
  else if w = "min" then "Min"
  else if w = "max" then "Max"
  else "Avg"

/-- The date part of a datetime text: the text before the first `T` when there is a `T`,
otherwise the text before the first space. -/
def datePart (dt : String) : String :=
  if 'T' ∈ dt.data then String.mk (dt.data.takeWhile (fun c => c != 'T'))
  else String.mk (dt.data.takeWhile (fun c => c != ' '))

/-- The x-axis label the specification gives a record: the date part of a non-empty
datetime string (the whole string when the date part is empty), else the float label. -/
def categoryLabel (item : JsVal) : String :=
  match optChain item "datetime" with
  | str dt =>
    if dt = "" then "Float " ++ toStr (optChain item "float_id")
    else if datePart dt = "" then dt
    else datePart dt
  | _ => "Float " ++ toStr (optChain item "float_id")

/-- The text `text` shows `x` with six decimal places: an optional sign, at least one
integer digit, a point and exactly six fraction digits, the digits being those of the
integer nearest to `|x| * 10 ^ 6` (the larger one of two), zero-padded to seven. -/
def SixPlaces (x : Num) (text : String) : Prop :=
  ∃ ip fp : List Char, ∃ n : ℕ,
    text = (if x.toRat < 0 then "-" else "") ++ String.mk ip ++ "." ++ String.mk fp ∧
    fp.length = 6 ∧ ip ≠ [] ∧
    (n : ℤ) = ⌊|x.toRat| * 10 ^ 6 + 1 / 2⌋ ∧
    ip ++ fp = List.replicate (7 - (toString n).length) '0' ++ (toString n).data

/-- A key that is not the decimal rendering of a number, hence no array or string
index. -/
def NotIndex (k : String) : Prop := ∀ n : Nat, toString n ≠ k

/-- The fixed message of the call site of each `ApiService` method. -/
def callSiteMessage : ApiCall → String
  | .login _ => "Login failed"
  | .signup _ => "Signup failed"
  | .getChatHistory => "Failed to fetch chat history"
  | .sendMessage _ => "Failed to send message"
  | .getUserProfile => "Failed to fetch user profile"
  | .updateUserProfile _ => "Failed to update user profile"
  | .getConversations => "Failed to fetch conversations"
  | .createConversation _ => "Failed to create conversation"
  | .deleteConversation _ => "Failed to delete conversation"
  | .getConversationMessages _ => "Failed to fetch conversation messages"
  | .refreshToken => "Failed to refresh token"
  | .logout => "Failed to logout"

/-- The views that the toggle reaches from the initial view. -/
inductive ReachableView : String → Prop where
  | initial : ReachableView initialView
  | toggle (onSwitchToMap : Bool) (view : String) :
      ReachableView view → ReachableView (handleToggleView onSwitchToMap view).1

/-- The table markup without header cells and without body rows. -/
def emptyTableShell : String :=
  "\n          <div class=\"overflow-x-auto w-full\">\n            <table class=\"w-full text-sm border-collapse\">\n              <thead>\n                <tr>\n                  \n                </tr>\n              </thead>\n              <tbody>\n                \n              </tbody>\n            </table>\n          </div>\n        "

/-! ## Sample inputs -/

/-- A clock that advances by one millisecond per reading. -/
def sampleEnv : Env :=
  { clock := fun k => 1700000000000 + k, toISOString := fun _ => "2023-11-14T22:13:20.000Z",
    apiUrl := none }

/-- A table envelope with two rows. -/
def sampleTable : JsVal :=
  obj [("type", str "table"),
    ("data", arr [obj [("year", num "2024"), ("pressure", num "10.5"), ("float_id", num "7"),
        ("zeta", str "z"), ("temperature", num "28.1")],
      obj [("float_id", num "8")]])]

/-- Two visualization records. -/
def sampleRecords : List JsVal :=
  [obj [("float_id", num "7"), ("datetime", str "2024-01-05T10:00:00"),
      ("measurements", obj [("temperature_min", num "3.5"), ("temperature_avg", num "4"),
        ("oxygen_max", num "9")])],
   obj [("float_id", num "8"), ("measurements", obj [("pressure_max", num "1000")])]]

/-- A visualization envelope with a textual answer. -/
def sampleVisualization : JsVal :=
  obj [("type", str "visualization"), ("answer", str "Here is the plot."),
    ("data", arr sampleRecords)]

/-- A visualization envelope whose answer field is present and empty. -/
def emptyAnswerVisualization : JsVal :=
  obj [("type", str "visualization"), ("answer", str ""), ("data", arr [])]

/-- An answer envelope. -/
def answerEnvelope : JsVal :=
  obj [("type", str "answer"), ("answer", str "The float is at 12 N.")]

/-- An envelope of a type the dispatcher does not know. -/
def unknownEnvelope : JsVal := obj [("type", str "chart"), ("answer", str "ignored")]

/-- A state with one entry in the transcript. -/
def sampleState : ChatState :=
  { messages := [⟨"1", str "Hello! How can I help you today?", "bot",
      "2023-11-14T22:13:19.000Z"⟩],
    loading := true, isSplitView := false, isSidebarVisible := true, dashData := arr [] }

/-- The double nearest to 28.1. -/
def lat281 : Num := ⟨false, 3954723422784717, 140737488355328, by decide⟩

/-- The double nearest to 77.2. -/
def lng772 : Num := ⟨false, 5432467050515661, 70368744177664, by decide⟩

/-- A map whose chat input setter is registered. -/
def sampleTarget : ClickTarget :=
  { clickMarker := none, popup := none, setterRegistered := true, inputMessage := "",
    programmaticSet := false }

/-- A number-to-string conversion for large magnitudes; the sample positions do not
reach it. -/
def sampleNumberToString (_ : Num) : String := "1e+21"

/-- A session storage that holds the token the login stores. -/
def sampleStorage : Storage := [("auth_token", "mock_jwt_token")]

/-- A network on which every request is answered with status 500. -/
def failingNetwork : Network := fun _ => .responded { status := 500, body := none }

/-- A response with status 401 and a JSON body. -/
def unauthorizedResponse : Response :=
  { status := 401, body := some (obj [("detail", str "Not authenticated")]) }

/-- A chat input whose text stands between white space. -/
def sampleInput : ChatInput :=
  { inputMessage := "  lat 28.100000 lon 77.200000\n", isTyping := false }

/-- A table envelope without a data field. -/
def emptyTable : JsVal := obj [("type", str "table")]

/-- One record whose only measurement key is outside the nine condition metrics. -/
def noConditionRecords : List JsVal :=
  [obj [("float_id", num "7"), ("measurements", obj [("oxygen_max", num "9")])]]

/-! ## Auxiliary facts -/

/-! ### Decimal rendering of natural numbers -/

theorem toDigitsCore_suffix (b f n : Nat) (ds : List Char) :
    ∃ pre, Nat.toDigitsCore b f n ds = pre ++ ds := by
  induction f generalizing n ds with
  | zero => exact ⟨[], rfl⟩
  | succ f ih =>
    simp only [Nat.toDigitsCore]
    split_ifs
    · exact ⟨[Nat.digitChar (n % b)], rfl⟩
    · obtain ⟨pre, h⟩ := ih (n / b) (Nat.digitChar (n % b) :: ds)
      exact ⟨pre ++ [Nat.digitChar (n % b)], by simp [h]⟩

theorem toDigits_ten_shape (n : Nat) :
    ∃ pre, Nat.toDigits 10 n = pre ++ [Nat.digitChar (n % 10)] ∧ (n / 10 ≠ 0 → pre ≠ []) := by
  unfold Nat.toDigits
  simp only [Nat.toDigitsCore]
  split_ifs with h
  · exact ⟨[], rfl, fun h2 => absurd h h2⟩
  · obtain ⟨m, rfl⟩ : ∃ m, n = m + 1 := by
      cases n with
      | zero => simp at h
      | succ m => exact ⟨m, rfl⟩
    simp only [Nat.toDigitsCore]
    split_ifs
    · exact ⟨[Nat.digitChar ((m + 1) / 10 % 10)], rfl, fun _ => by simp⟩
    · obtain ⟨pre, hp⟩ := toDigitsCore_suffix 10 m ((m + 1) / 10 / 10)
        [Nat.digitChar ((m + 1) / 10 % 10), Nat.digitChar ((m + 1) % 10)]
      refine ⟨pre ++ [Nat.digitChar ((m + 1) / 10 % 10)], ?_, fun _ => by simp⟩
      simp [hp]

theorem digitChar_eq_zero {k : Nat} (hk : k < 10) (h : Nat.digitChar k = '0') : k = 0 := by
  interval_cases k <;> first | rfl | (exact absurd h (by decide))

theorem digitChar_isDigit {k : Nat} (hk : k < 10) : (Nat.digitChar k).isDigit = true := by
  interval_cases k <;> decide

theorem toString_nat_getLast (n : Nat) :
    (toString n).data.getLast? = some (Nat.digitChar (n % 10)) := by
  obtain ⟨pre, hp, -⟩ := toDigits_ten_shape n
  have : (toString n).data = pre ++ [Nat.digitChar (n % 10)] := hp
  simp [this]

theorem notIndex_of_last (k : String) (c : Char) (hl : k.data.getLast? = some c)
    (hc : c.isDigit = false) : NotIndex k := by
  intro n h
  have h1 := toString_nat_getLast n
  rw [h, hl] at h1
  have h2 := digitChar_isDigit (Nat.mod_lt n (by decide : 10 > 0))
  simp only [Option.some.injEq] at h1
  rw [← h1, hc] at h2
  exact absurd h2 (by decide)

theorem toString_succ_ne_zero (n : Nat) : toString (n + 1) ≠ "0" := by
  intro h
  have hd : Nat.toDigits 10 (n + 1) = ['0'] := congrArg String.data h
  obtain ⟨pre, hp, hne⟩ := toDigits_ten_shape (n + 1)
  rw [hd] at hp
  cases pre with
  | nil =>
    simp at hp
    have h0 := digitChar_eq_zero (Nat.mod_lt _ (by decide)) hp.symm
    by_cases hq : (n + 1) / 10 = 0
    · omega
    · exact hne hq rfl
  | cons c cs =>
    cases cs <;> simp at hp

theorem toString_nat_ne_NaN (n : Nat) : toString n ≠ "NaN" :=
  notIndex_of_last "NaN" 'N' (by decide) (by decide) n

theorem truthy_length_succ (n : Nat) : (num (toString (n + 1))).truthy = true := by
  simp [truthy, toString_succ_ne_zero, toString_nat_ne_NaN]

/-! ### Property reads -/

theorem getProp_ok_of_ok {v x : JsVal} {k : String} (h : getProp v k = .ok x) (k2 : String) :
    ∃ y, getProp v k2 = .ok y := by
  cases v with
  | undefined => simp [getProp] at h
  | null => simp [getProp] at h
  | bool b => exact ⟨_, rfl⟩
  | num l => exact ⟨_, rfl⟩
  | str s =>
    simp only [getProp]
    split <;> (try split) <;> (try split) <;> exact ⟨_, rfl⟩
  | arr xs =>
    simp only [getProp]
    split <;> (try split) <;> (try split) <;> exact ⟨_, rfl⟩
  | obj fs =>
    simp only [getProp]
    split <;> exact ⟨_, rfl⟩

theorem arrayIndex_zero : arrayIndex "0" = some 0 := by decide

/-! ### Table columns -/

theorem mem_preferredOrder_iff (columns : List String) (c : String) (hc : c ∈ columns) :
    c ∈ preferredOrder columns ↔ c ∈ preferredColumns := by
  simp [preferredOrder, condCols, possibleConds, preferredColumns, hc]
  tauto

theorem orderedColumns_eq_spec (columns : List String) :
    orderedColumns columns = specColumnOrder columns := by
  unfold orderedColumns specColumnOrder
  congr 1
  · have hp : (fun c => columns.contains c) = (fun c => decide (c ∈ columns)) := by
      funext c; simp
    simp only [preferredOrder, condCols, hp]
    show (["float_id"] ++ possibleConds.filter _ ++ _).filter _ =
      (["float_id"] ++ possibleConds ++ _).filter _
    simp only [List.filter_append, List.filter_filter, Bool.and_self]
  · apply List.filter_congr
    intro c hc
    simp [mem_preferredOrder_iff columns c hc]

theorem tableColumns_cons (fields : List (String × JsVal)) (rest : List JsVal) :
    tableColumns (tableRows (arr (obj fields :: rest))) = .ok (fields.map Prod.fst) := by
  have h := truthy_length_succ rest.length
  have hl : getProp (arr (obj fields :: rest)) "length" =
      .ok (num (toString (rest.length + 1))) := rfl
  have h0 : getProp (arr (obj fields :: rest)) "0" = .ok (obj fields) := by
    simp [getProp, arrayIndex_zero]
  have hr : tableRows (arr (obj fields :: rest)) = arr (obj fields :: rest) := rfl
  simp only [hr, tableColumns, hl, h0, h, if_true, objectKeys]

/-! ### Chart derivation -/

theorem mem_foldl_setAdd (k : String) (ks set : List String) :
    k ∈ ks.foldl setAdd set ↔ k ∈ set ∨ k ∈ ks := by
  induction ks generalizing set with
  | nil => simp
  | cons a as ih =>
    simp only [List.foldl_cons, ih, setAdd, List.mem_cons]
    by_cases h : set.contains a = true
    · simp only [h, if_true]
      have : a ∈ set := by simpa using h
      constructor
      · rintro (h1 | h1)
        · exact Or.inl h1
        · exact Or.inr (Or.inr h1)
      · rintro (h1 | h1 | h1)
        · exact Or.inl h1
        · exact Or.inl (h1 ▸ this)
        · exact Or.inr h1
    · have hf : set.contains a = false := by simpa using h
      simp only [hf, Bool.false_eq_true, if_false, List.mem_append, List.mem_singleton]
      tauto

theorem mem_presentMetrics_aux (k : String) (src : List JsVal) (set : List String) :
    k ∈ src.foldl (fun set item => (measurementKeys item).foldl setAdd set) set ↔
      k ∈ set ∨ ∃ item ∈ src, k ∈ measurementKeys item := by
  induction src generalizing set with
  | nil => simp
  | cons a as ih =>
    simp only [List.foldl_cons, ih, mem_foldl_setAdd, List.mem_cons, exists_eq_or_imp]
    tauto

theorem mem_presentMetrics (k : String) (src : List JsVal) :
    k ∈ presentMetrics src ↔ ∃ item ∈ src, k ∈ measurementKeys item := by
  simp [presentMetrics, mem_presentMetrics_aux]

theorem mem_measurementKeys (item : JsVal) (k : String) (hk : NotIndex k) :
    k ∈ measurementKeys item ↔ recordHasKey item k = true := by
  have hidx : ∀ n : Nat, k ∉ (List.range n).map toString := by
    intro n h
    obtain ⟨i, -, hi⟩ := List.mem_map.1 h
    exact hk i hi
  have hm : arrayIndex "measurements" = none := by decide
  cases item with
  | undefined => simp [measurementKeys, optChain, getProp, orElse, truthy, objectKeys, recordHasKey]
  | null => simp [measurementKeys, optChain, getProp, orElse, truthy, objectKeys, recordHasKey]
  | bool b => simp [measurementKeys, optChain, getProp, orElse, truthy, objectKeys, recordHasKey]
  | num l => simp [measurementKeys, optChain, getProp, orElse, truthy, objectKeys, recordHasKey]
  | str s =>
    simp [measurementKeys, optChain, getProp, hm, orElse, truthy, objectKeys, recordHasKey]
  | arr xs =>
    simp [measurementKeys, optChain, getProp, hm, orElse, truthy, objectKeys, recordHasKey]
  | obj fields =>
    simp only [measurementKeys, optChain, getProp, recordHasKey]
    cases hf : fields.lookup "measurements" with
    | none => simp [orElse, truthy, objectKeys]
    | some v =>
      cases v with
      | undefined => simp [orElse, truthy, objectKeys]
      | null => simp [orElse, truthy, objectKeys]
      | bool b => cases b <;> simp [orElse, truthy, objectKeys]
      | num l =>
        simp only [orElse]
        split_ifs <;> simp [objectKeys]
      | str s =>
        simp only [orElse]
        split_ifs
        · simpa [objectKeys] using hidx (utf16Length s)
        · simp [objectKeys]
      | arr xs => simpa [orElse, truthy, objectKeys] using hidx xs.length
      | obj ms => simp [orElse, truthy, objectKeys]

theorem has_eq_metricPresent (src : List JsVal) (c stat : String)
    (hk : NotIndex (c ++ "_" ++ stat)) :
    (presentMetrics src).contains (c ++ "_" ++ stat) = metricPresent src c stat := by
  rw [Bool.eq_iff_iff]
  have hc : (presentMetrics src).contains (c ++ "_" ++ stat) = true ↔
      (c ++ "_" ++ stat) ∈ presentMetrics src := by simp
  rw [hc, mem_presentMetrics]
  simp only [metricPresent, List.any_eq_true]
  constructor
  · rintro ⟨item, hi, hm⟩
    exact ⟨item, hi, (mem_measurementKeys item _ hk).1 hm⟩
  · rintro ⟨item, hi, hm⟩
    exact ⟨item, hi, (mem_measurementKeys item _ hk).2 hm⟩

theorem notIndex_metric (m : String × String) (hm : m ∈ metricOrder) :
    NotIndex (m.1 ++ "_" ++ m.2) := by
  simp only [metricOrder, List.mem_cons, List.mem_singleton, List.not_mem_nil, or_false] at hm
  rcases hm with h | h | h | h | h | h | h | h | h <;> subst h
  · exact notIndex_of_last _ 'n' (by decide) (by decide)
  · exact notIndex_of_last _ 'n' (by decide) (by decide)
  · exact notIndex_of_last _ 'n' (by decide) (by decide)
  · exact notIndex_of_last _ 'x' (by decide) (by decide)
  · exact notIndex_of_last _ 'x' (by decide) (by decide)
  · exact notIndex_of_last _ 'x' (by decide) (by decide)
  · exact notIndex_of_last _ 'g' (by decide) (by decide)
  · exact notIndex_of_last _ 'g' (by decide) (by decide)
  · exact notIndex_of_last _ 'g' (by decide) (by decide)

theorem has_metric (src : List JsVal) (c stat : String) (hm : (c, stat) ∈ metricOrder) :
    (presentMetrics src).contains (c ++ "_" ++ stat) = metricPresent src c stat :=
  has_eq_metricPresent src c stat (notIndex_metric (c, stat) hm)

theorem conds_eq (src : List JsVal) :
    conds src = conditionOrder.filter (conditionPresent src) := by
  simp only [conds, conditionOrder, statOrder, List.any_cons, List.any_nil, Bool.or_false]
  apply List.filter_congr
  intro c hc
  simp only [List.mem_cons, List.mem_singleton, List.not_mem_nil, or_false] at hc
  rcases hc with h | h | h <;> subst h <;>
    rw [has_metric src _ "min" (by decide), has_metric src _ "max" (by decide),
      has_metric src _ "avg" (by decide)] <;>
    simp [conditionPresent, Bool.or_assoc]

theorem axisFor_eq (c : String) (hc : c ∈ conditionOrder) : axisFor c = unitAxis c := by
  simp only [conditionOrder, List.mem_cons, List.mem_singleton, List.not_mem_nil, or_false] at hc
  rcases hc with h | h | h <;> subst h <;> decide

theorem yAxes_eq (src : List JsVal) :
    yAxes src = (conditionOrder.filter (conditionPresent src)).map unitAxis := by
  rw [yAxes, conds_eq]
  apply List.map_congr_left
  intro c hc
  exact axisFor_eq c (List.mem_of_mem_filter hc)

theorem filterMap_filter_of_imp {α β : Type} (p : α → Bool) (g : α → Option β) (l : List α)
    (h : ∀ x ∈ l, (g x).isSome = true → p x = true) :
    (l.filter p).filterMap g = l.filterMap g := by
  induction l with
  | nil => rfl
  | cons a as ih =>
    have iha := ih (fun x hx => h x (List.mem_cons_of_mem a hx))
    by_cases hp : p a = true
    · simp [List.filter_cons, hp, List.filterMap_cons, iha]
    · have hg : g a = none := by
        cases hga : g a with
        | none => rfl
        | some b => exact absurd (h a (List.mem_cons_self a as) (by simp [hga])) hp
      simp [List.filter_cons, hp, List.filterMap_cons, iha, hg]

theorem series_eq (src : List JsVal) :
    series src = (metricOrder.filter (fun m => metricPresent src m.1 m.2)).map
      (fun m => seriesFor src m.2 m.1) := by
  have hstat : ∀ stat, stat ∈ statOrder →
      (conds src).filterMap (fun c =>
        if (presentMetrics src).contains (c ++ "_" ++ stat) then some (seriesFor src stat c)
        else none) =
      conditionOrder.filterMap (fun c =>
        if metricPresent src c stat then some (seriesFor src stat c) else none) := by
    intro stat hs
    simp only [statOrder, List.mem_cons, List.mem_singleton, List.not_mem_nil, or_false] at hs
    have hmem : ∀ c ∈ conditionOrder, (c, stat) ∈ metricOrder := by
      intro c hc
      simp only [conditionOrder, List.mem_cons, List.mem_singleton, List.not_mem_nil,
        or_false] at hc
      rcases hs with h | h | h <;> rcases hc with h2 | h2 | h2 <;> subst h <;> subst h2 <;> decide
    rw [conds_eq]
    rw [filterMap_filter_of_imp]
    · apply List.filterMap_congr
      intro c hc
      rw [has_metric src c stat (hmem c hc)]
    · intro c hc hsome
      rw [has_metric src c stat (hmem c hc)] at hsome
      have hmp : metricPresent src c stat = true := by
        by_contra hne
        simp [hne] at hsome
      rcases hs with h | h | h <;> subst h <;> simp [conditionPresent, hmp]
  simp only [series]
  rw [show statOrder = ["min", "max", "avg"] from rfl]
  simp only [List.flatMap_cons, List.flatMap_nil, List.append_nil]
  rw [hstat "min" (by decide), hstat "max" (by decide), hstat "avg" (by decide)]
  simp only [conditionOrder, metricOrder, List.filterMap_cons, List.filterMap_nil, List.filter_cons,
    List.filter_nil]
  cases metricPresent src "temperature" "min" <;> cases metricPresent src "salinity" "min" <;>
    cases metricPresent src "pressure" "min" <;> simp <;>
  cases metricPresent src "temperature" "max" <;> cases metricPresent src "salinity" "max" <;>
    cases metricPresent src "pressure" "max" <;> simp <;>
  cases metricPresent src "temperature" "avg" <;> cases metricPresent src "salinity" "avg" <;>
    cases metricPresent src "pressure" "avg" <;> simp

theorem seriesFor_name_type (src : List JsVal) (m : String × String) (hm : m ∈ metricOrder) :
    ((seriesFor src m.2 m.1).name, (seriesFor src m.2 m.1).type) =
      (displayWord m.1 ++ " " ++ displayWord m.2, seriesKind m.2) := by
  simp only [metricOrder, List.mem_cons, List.mem_singleton, List.not_mem_nil, or_false] at hm
  rcases hm with h | h | h | h | h | h | h | h | h <;> subst h <;>
    simp only [seriesFor] <;> decide

theorem chartSource_of_ne_nil (src : List JsVal) (hne : src ≠ []) :
    chartSource (arr src) = src ∧ src.length ≠ 0 := by
  cases src with
  | nil => exact absurd rfl hne
  | cons x xs => simp [chartSource]

theorem splitChars_eq_cons (sep : Char) (l : List Char) :
    ∃ ps, splitChars sep l = l.takeWhile (fun c => c != sep) :: ps := by
  induction l with
  | nil => exact ⟨[], rfl⟩
  | cons c cs ih =>
    obtain ⟨ps, hps⟩ := ih
    by_cases h : c = sep
    · exact ⟨splitChars sep cs, by simp [splitChars, h]⟩
    · have hb : (c != sep) = true := by simp [h]
      exact ⟨ps, by simp [splitChars, h, hps, List.takeWhile, hb]⟩

theorem splitFirst_eq (sep : Char) (dt : String) :
    splitFirst sep dt = String.mk (dt.data.takeWhile (fun c => c != sep)) := by
  obtain ⟨ps, hps⟩ := splitChars_eq_cons sep dt.data
  simp [splitFirst, hps]

theorem utf16Length_eq_zero (s : String) : utf16Length s = 0 ↔ s = "" := by
  obtain ⟨l⟩ := s
  cases l with
  | nil => simp [utf16Length]
  | cons c cs =>
    have : (⟨c :: cs⟩ : String) ≠ "" := by
      intro h; exact absurd (congrArg String.data h) (by simp)
    simp only [this, iff_false]
    simp only [utf16Length, List.map_cons, List.sum_cons]
    split_ifs <;> omega

theorem category_eq_label (item : JsVal) : category item = categoryLabel item := by
  unfold category categoryLabel
  cases h : optChain item "datetime" with
  | str dt =>
    by_cases he : dt = ""
    · subst he; rfl
    · have ht : (str dt).truthy = true := by simp [truthy, he]
      have hl : utf16Length dt ≠ 0 := fun h0 => he ((utf16Length_eq_zero dt).1 h0)
      simp only [orElse, ht, if_true, hl, ne_eq, not_false_eq_true, he, if_false]
      simp only [datePart, splitFirst_eq, List.elem_eq_mem, List.contains_eq_any_beq,
        decide_eq_true_eq]
      split_ifs <;> simp_all
  | undefined => rfl
  | null => rfl
  | bool b => cases b <;> rfl
  | num l =>
    simp only [orElse]
    split_ifs <;> rfl
  | arr xs => rfl
  | obj fs => rfl

/-! ### Fixed-point rendering -/

theorem insertPoint_shape (f : Nat) (m : List Char) (hf : f ≠ 0) :
    ∃ ip fp : List Char, insertPoint f m = ip ++ '.' :: fp ∧ fp.length = f ∧ ip ≠ [] ∧
      ip ++ fp = List.replicate (f + 1 - m.length) '0' ++ m := by
  simp only [insertPoint, hf, ne_eq, not_false_eq_true, if_true]
  by_cases hle : m.length ≤ f
  · simp only [hle, if_true]
    refine ⟨_, _, rfl, ?_, ?_, ?_⟩
    · simp only [List.length_drop, List.length_append, List.length_replicate]; omega
    · intro h
      have := congrArg List.length h
      simp only [List.length_take, List.length_append, List.length_replicate,
        List.length_nil] at this
      omega
    · exact List.take_append_drop _ _
  · simp only [hle, if_false]
    refine ⟨_, _, rfl, ?_, ?_, ?_⟩
    · simp only [List.length_drop]; omega
    · intro h
      have := congrArg List.length h
      simp only [List.length_take, List.length_nil] at this
      omega
    · have h0 : f + 1 - m.length = 0 := by omega
      rw [h0, List.replicate_zero, List.nil_append]
      exact List.take_append_drop _ _

theorem pointed_shape (f n : Nat) (hf : f ≠ 0) :
    ∃ ip fp : List Char, pointed f n = ip ++ '.' :: fp ∧ fp.length = f ∧ ip ≠ [] ∧
      ip ++ fp = List.replicate (f + 1 - (toString n).length) '0' ++ (toString n).data :=
  insertPoint_shape f (toString n).data hf

theorem Num.abs_toRat (x : Num) : |x.toRat| = (x.num : ℚ) / (x.den : ℚ) := by
  have hd : (0 : ℚ) < x.den := by exact_mod_cast x.den_pos
  have hq : (0 : ℚ) ≤ (x.num : ℚ) / (x.den : ℚ) := by positivity
  unfold Num.toRat
  cases x.neg
  · simp [abs_of_nonneg hq]
  · simp [abs_of_nonneg hq]

theorem Num.isNegative_iff (x : Num) : x.isNegative = true ↔ x.toRat < 0 := by
  have hd : (0 : ℚ) < x.den := by exact_mod_cast x.den_pos
  unfold Num.isNegative Num.toRat
  cases hn : x.neg
  · simp
    positivity
  · simp
    constructor
    · intro h
      have : (0 : ℚ) < x.num := by exact_mod_cast Nat.pos_of_ne_zero h
      positivity
    · intro h h0
      simp [h0] at h

theorem Num.scaledRound_eq (f : Nat) (x : Num) :
    ((x.scaledRound f : ℕ) : ℤ) = ⌊|x.toRat| * 10 ^ f + 1 / 2⌋ := by
  have hd : (0 : ℚ) < x.den := by exact_mod_cast x.den_pos
  rw [Num.abs_toRat]
  have h : (x.num : ℚ) / x.den * 10 ^ f + 1 / 2 =
      ((2 * x.num * 10 ^ f + x.den : ℕ) : ℚ) / ((2 * x.den : ℕ) : ℚ) := by
    push_cast
    field_simp
    ring
  rw [h, ← Int.natCast_floor_eq_floor (by positivity), Nat.floor_div_eq_div]
  rfl

theorem Num.in_range (x : Num) (h : |x.toRat| < 10 ^ 21) : ¬ 10 ^ 21 * x.den ≤ x.num := by
  have hd : (0 : ℚ) < x.den := by exact_mod_cast x.den_pos
  rw [Num.abs_toRat, div_lt_iff₀ hd] at h
  intro hle
  have : ((10 ^ 21 * x.den : ℕ) : ℚ) ≤ (x.num : ℚ) := by exact_mod_cast hle
  push_cast at this
  linarith

theorem toFixed_six (nts : Num → String) (x : Num) (h : |x.toRat| < 10 ^ 21) :
    SixPlaces x (toFixed nts 6 x) := by
  obtain ⟨ip, fp, hp, hlen, hne, hdig⟩ := pointed_shape 6 (x.scaledRound 6) (by decide)
  refine ⟨ip, fp, x.scaledRound 6, ?_, hlen, hne, Num.scaledRound_eq 6 x, hdig⟩
  simp only [toFixed, Num.in_range x h, if_false, hp]
  have hs : (if x.isNegative = true then "-" else "") = (if x.toRat < 0 then "-" else "") := by
    by_cases hn : x.toRat < 0
    · simp [hn, (Num.isNegative_iff x).2 hn]
    · have : ¬ x.isNegative = true := fun h2 => hn ((Num.isNegative_iff x).1 h2)
      simp [hn, this]
  rw [hs]
  apply String.ext
  simp [String.append_assoc]

theorem lat281_in_range : |lat281.toRat| < 10 ^ 21 := by
  rw [Num.abs_toRat]; norm_num [lat281]

theorem lng772_in_range : |lng772.toRat| < 10 ^ 21 := by
  rw [Num.abs_toRat]; norm_num [lng772]

/-! ### Empty table -/

set_option maxRecDepth 100000 in
theorem tableShell_empty : tableShell "" "" = emptyTableShell := by decide

theorem tableHtml_empty : tableHtml (arr []) = .ok emptyTableShell := by
  have h : tableHtml (arr []) = .ok (tableShell "" "") := rfl
  rw [h, tableShell_empty]

/-! ### Column permutation -/

theorem preferredColumns_nodup : preferredColumns.Nodup := by decide

theorem specColumnOrder_perm (keys : List String) (hnd : keys.Nodup) :
    (specColumnOrder keys).Perm keys := by
  unfold specColumnOrder
  have h1 : (preferredColumns.filter (fun c => decide (c ∈ keys))).Perm
      (keys.filter (fun c => decide (c ∈ preferredColumns))) := by
    rw [List.perm_ext_iff_of_nodup (preferredColumns_nodup.filter _) (hnd.filter _)]
    intro c
    simp [List.mem_filter, and_comm]
  have h2 : (keys.filter (fun c => decide (c ∈ preferredColumns)) ++
      keys.filter (fun c => decide (c ∉ preferredColumns))).Perm keys := by
    have := List.filter_append_perm (fun c => decide (c ∈ preferredColumns)) keys
    simpa using this
  exact (h1.append_right _).trans h2

/-! ### Trimming -/

theorem jsTrim_eq_empty_iff (s : String) :
    jsTrim s = "" ↔ ∀ c ∈ s.data, isTrimmable c = true := by
  unfold jsTrim
  constructor
  · intro h
    have h1 : ((s.data.dropWhile isTrimmable).reverse.dropWhile isTrimmable).reverse = [] :=
      congrArg String.data h
    rw [List.reverse_eq_nil_iff, List.dropWhile_eq_nil_iff] at h1
    by_contra hne
    have hd : s.data.dropWhile isTrimmable ≠ [] := by
      intro h0
      exact hne (List.dropWhile_eq_nil_iff.1 h0)
    obtain ⟨x, xs, hx⟩ := List.exists_cons_of_ne_nil hd
    have hhead : isTrimmable x = false := by
      have := List.head_dropWhile_not isTrimmable s.data hd
      simpa [hx] using this
    have hmem : x ∈ (s.data.dropWhile isTrimmable).reverse := by
      simp [hx]
    rw [h1 x hmem] at hhead
    exact absurd hhead (by decide)
  · intro h
    have h0 : s.data.dropWhile isTrimmable = [] := List.dropWhile_eq_nil_iff.2 h
    simp [h0]

/-! ### Axis indices and missing measurements -/

theorem lookup_enumFrom_swap (l : List String) (c : String) (n : Nat) (hc : c ∈ l) :
    ∃ j, ((l.enumFrom n).map (fun p => (p.2, p.1))).lookup c = some (n + j) ∧
      l[j]? = some c := by
  induction l generalizing n with
  | nil => simp at hc
  | cons a as ih =>
    by_cases hca : c = a
    · subst hca
      exact ⟨0, by simp [List.enumFrom, List.lookup], by simp⟩
    · have hmem : c ∈ as := by
        rcases List.mem_cons.1 hc with h | h
        · exact absurd h hca
        · exact h
      obtain ⟨j, hj, hget⟩ := ih (n + 1) hmem
      refine ⟨j + 1, ?_, by simpa using hget⟩
      have hne : (c == a) = false := by simp [hca]
      simp only [List.enumFrom, List.map_cons, List.lookup, hne]
      rw [hj]
      congr 1
      omega

theorem condToAxis_lookup (src : List JsVal) (c : String) (hc : c ∈ conds src) :
    ∃ i, (condToAxis src).lookup c = some i ∧ (conds src)[i]? = some c := by
  obtain ⟨j, hj, hget⟩ := lookup_enumFrom_swap (conds src) c 0 hc
  exact ⟨j, by simpa [condToAxis, List.enum] using hj, hget⟩

theorem mem_conds_of_metricPresent (src : List JsVal) (m : String × String)
    (hm : m ∈ metricOrder) (hp : metricPresent src m.1 m.2 = true) :
    m.1 ∈ conds src ∧ m.1 ∈ conditionOrder := by
  rw [conds_eq]
  simp only [metricOrder, List.mem_cons, List.mem_singleton, List.not_mem_nil, or_false] at hm
  rcases hm with h | h | h | h | h | h | h | h | h <;> subst h <;>
    simp [conditionOrder, conditionPresent, List.mem_filter] <;> simp_all

theorem missing_measurement_is_null (item : JsVal) (k : String) (hk : NotIndex k)
    (hlen : k ≠ "length") (hmiss : recordHasKey item k = false) :
    nullish (optChain (optChain item "measurements") k) null = null := by
  have hidx : arrayIndex k = none := by
    unfold arrayIndex
    split
    · simp only
      split
      · rename_i h2
        exact absurd h2 (hk _)
      · rfl
    · rfl
  have hm : arrayIndex "measurements" = none := by decide
  have hprim : ∀ v : JsVal, (∀ ms, v ≠ obj ms) → nullish (optChain v k) null = null := by
    intro v hv
    cases v with
    | obj ms => exact absurd rfl (hv ms)
    | str s =>
      simp only [optChain, getProp, hlen, if_false, hidx]
      rfl
    | arr xs =>
      simp only [optChain, getProp, hlen, if_false, hidx]
      rfl
    | _ => rfl
  cases item with
  | obj fields =>
    simp only [recordHasKey] at hmiss
    simp only [optChain, getProp]
    cases hf : fields.lookup "measurements" with
    | none => rfl
    | some v =>
      rw [hf] at hmiss
      cases v with
      | obj ms =>
        simp only at hmiss
        have hnot : k ∉ ms.map Prod.fst := by
          intro hin
          have : (ms.map Prod.fst).contains k = true := by simpa using hin
          rw [this] at hmiss
          exact absurd hmiss (by decide)
        have hl : ms.lookup k = none := by
          rw [List.lookup_eq_none_iff]
          intro p hp
          have hpk : k ≠ p.1 := by
            intro hpk
            apply hnot
            rw [List.mem_map]
            exact ⟨p, hp, hpk.symm⟩
          simpa using hpk
        simp [hl, nullish]
      | undefined => rfl
      | null => rfl
      | bool b => rfl
      | num l => rfl
      | str s => exact hprim (str s) (fun ms h => by cases h)
      | arr xs => exact hprim (arr xs) (fun ms h => by cases h)
  | str s =>
    simp only [optChain, getProp, hm]
    rfl
  | arr xs =>
    simp only [optChain, getProp, hm]
    rfl
  | undefined => rfl
  | null => rfl
  | bool b => rfl
  | num l => rfl

theorem metric_key_ne_length (m : String × String) (hm : m ∈ metricOrder) :
    m.1 ++ "_" ++ m.2 ≠ "length" := by
  simp only [metricOrder, List.mem_cons, List.mem_singleton, List.not_mem_nil, or_false] at hm
  rcases hm with h | h | h | h | h | h | h | h | h <;> subst h <;> decide

/-! ### Emitted value axes -/

theorem unitAxis_ne_defaultAxis (c : String) : unitAxis c ≠ defaultAxis := by
  unfold unitAxis
  split_ifs <;> decide

theorem yAxes_ne_default (src : List JsVal) : yAxes src ≠ [defaultAxis] := by
  rw [yAxes_eq]
  intro h
  cases hf : conditionOrder.filter (conditionPresent src) with
  | nil => rw [hf] at h; cases h
  | cons c cs =>
    rw [hf, List.map_cons] at h
    exact unitAxis_ne_defaultAxis c (List.head_eq_of_cons_eq h)

theorem yAxes_eq_nil_iff (src : List JsVal) :
    yAxes src = [] ↔ conditionOrder.filter (conditionPresent src) = [] := by
  rw [yAxes_eq, List.map_eq_nil_iff]

theorem emitted_yAxis (src : List JsVal) (hne : src ≠ []) :
    (deriveChart (arr src)).yAxis =
      some (if (yAxes src).length ≠ 0 then yAxes src else [defaultAxis]) := by
  obtain ⟨hs, hl⟩ := chartSource_of_ne_nil src hne
  simp only [deriveChart, hs, hl, if_false]

theorem emitted_series (src : List JsVal) (hne : src ≠ []) :
    (deriveChart (arr src)).series = some (series src) := by
  obtain ⟨hs, hl⟩ := chartSource_of_ne_nil src hne
  simp only [deriveChart, hs, hl, if_false]

theorem series_eq_nil_of_no_condition (src : List JsVal)
    (h : conditionOrder.filter (conditionPresent src) = []) : series src = [] := by
  have hc : conds src = [] := by rw [conds_eq, h]
  simp [series, hc, statOrder]

theorem default_axis_iff (d : JsVal) :
    (deriveChart d).yAxis = some [defaultAxis] ↔
      ∃ src, d = arr src ∧ src ≠ [] ∧ conditionOrder.filter (conditionPresent src) = [] := by
  constructor
  · intro h
    cases d with
    | arr src =>
      by_cases hne : src = []
      · subst hne
        exact absurd h (by decide)
      · refine ⟨src, rfl, hne, ?_⟩
        rw [emitted_yAxis src hne] at h
        by_cases hy : (yAxes src).length ≠ 0
        · rw [if_pos hy] at h
          exact absurd (Option.some.inj h) (yAxes_ne_default src)
        · have h0 : yAxes src = [] := List.length_eq_zero.1 (not_not.1 hy)
          exact (yAxes_eq_nil_iff src).1 h0
    | undefined => exact absurd h (by decide)
    | null => exact absurd h (by decide)
    | bool b => simp [deriveChart, chartSource, noDataOption] at h
    | num l => simp [deriveChart, chartSource, noDataOption] at h
    | str t => simp [deriveChart, chartSource, noDataOption] at h
    | obj fs => simp [deriveChart, chartSource, noDataOption] at h
  · rintro ⟨src, rfl, hne, hf⟩
    have h0 : yAxes src = [] := (yAxes_eq_nil_iff src).2 hf
    rw [emitted_yAxis src hne, h0]
    rfl

/-! ## The claims -/

/-- C1. For an envelope of type `table` whose data starts with a first record, the column
order the dispatcher computes is the preferred columns `float_id`, `temperature`,
`salinity`, `pressure`, `latitude`, `longitude`, `depth_min`, `depth_max` that are keys
of the first record, in that order, followed by the remaining keys of the first record
in their original order; and the entry the dispatcher appends is the table shell whose
header cells and body cells follow that order. -/
theorem table_column_order (env : Env) (data : JsVal) (s : ChatState)
    (fields : List (String × JsVal)) (rest : List JsVal)
    (htype : getProp data "type" = .ok (str "table"))
    (hdata : getProp data "data" = .ok (arr (obj fields :: rest))) :
    tableColumnOrder data = .ok (specColumnOrder (fields.map Prod.fst)) ∧
    dispatchEnvelope env data s =
      (match bodyRows (specColumnOrder (fields.map Prod.fst)) (arr (obj fields :: rest)) with
        | .error e => { state := s, thrown := some e }
        | .ok body =>
          { state := s.push (botMessage env 0 1 (str (tableShell
              (String.join ((specColumnOrder (fields.map Prod.fst)).map headerCell))
              (String.join body)))),
            thrown := none }) := by
  have hc := tableColumns_cons fields rest
  constructor
  · simp [tableColumnOrder, hdata, hc, orderedColumns_eq_spec]
  · have e1 : ("table" == "answer") = false := by decide
    have e2 : ("table" == "visualization") = false := by decide
    have e3 : ("table" == "table") = true := by decide
    simp only [dispatchEnvelope, htype, hdata, strictEqStr, e1, e2, e3, tableHtml, hc,
      orderedColumns_eq_spec]
    have hr : tableRows (arr (obj fields :: rest)) = arr (obj fields :: rest) := rfl
    rw [hr]
    cases bodyRows (specColumnOrder (List.map Prod.fst fields)) (arr (obj fields :: rest)) <;>
      simp

/-- Witness of C1 on a table whose first record has the keys `year`, `pressure`,
`float_id`, `zeta`, `temperature`. -/
theorem table_column_order_witness :
    getProp sampleTable "type" = .ok (str "table") ∧
    tableColumnOrder sampleTable =
      .ok (specColumnOrder ["year", "pressure", "float_id", "zeta", "temperature"]) ∧
    specColumnOrder ["year", "pressure", "float_id", "zeta", "temperature"] =
      ["float_id", "temperature", "pressure", "year", "zeta"] :=
  ⟨rfl, (table_column_order sampleEnv sampleTable sampleState _ _ rfl rfl).1, by decide⟩

/-- C2, as amended. For an envelope of type `visualization` the dispatcher appends one or
two bot entries: when the answer field is truthy, the answer entry followed by the fixed
acknowledgement; otherwise (answer absent, `null`, empty, `false` or zero) the
acknowledgement alone. -/
theorem visualization_appends_ack (env : Env) (data : JsVal) (s : ChatState)
    (htype : getProp data "type" = .ok (str "visualization")) :
    ∃ answer, getProp data "answer" = .ok answer ∧
      (answer.truthy = true →
        ∃ m₁ m₂, (dispatched env data s).messages = s.messages ++ [m₁, m₂] ∧
          m₁.sender = "bot" ∧ m₁.content = answer ∧
          m₂.sender = "bot" ∧ m₂.content = str visualizationAck) ∧
      (answer.truthy = false →
        ∃ m, (dispatched env data s).messages = s.messages ++ [m] ∧
          m.sender = "bot" ∧ m.content = str visualizationAck) := by
  obtain ⟨answer, ha⟩ := getProp_ok_of_ok htype "answer"
  obtain ⟨d, hd⟩ := getProp_ok_of_ok htype "data"
  have e1 : ("visualization" == "answer") = false := by decide
  have e2 : ("visualization" == "visualization") = true := by decide
  refine ⟨answer, ha, ?_, ?_⟩
  · intro ht
    refine ⟨botMessage env 0 1 answer, botMessage env 2 2 (str visualizationAck), ?_⟩
    simp [dispatched, dispatchEnvelope, htype, ha, hd, strictEqStr, e1, e2, ht,
      ChatState.push, botMessage]
  · intro ht
    refine ⟨botMessage env 0 2 (str visualizationAck), ?_⟩
    simp [dispatched, dispatchEnvelope, htype, ha, hd, strictEqStr, e1, e2, ht,
      ChatState.push, botMessage]

/-- Witness of the amended C2 on a visualization envelope with a textual answer. -/
theorem visualization_appends_ack_witness :
    getProp sampleVisualization "type" = .ok (str "visualization") ∧
    ∃ answer, getProp sampleVisualization "answer" = .ok answer ∧
      (answer.truthy = true →
        ∃ m₁ m₂, (dispatched sampleEnv sampleVisualization sampleState).messages =
            sampleState.messages ++ [m₁, m₂] ∧
          m₁.sender = "bot" ∧ m₁.content = answer ∧
          m₂.sender = "bot" ∧ m₂.content = str visualizationAck) ∧
      (answer.truthy = false →
        ∃ m, (dispatched sampleEnv sampleVisualization sampleState).messages =
            sampleState.messages ++ [m] ∧
          m.sender = "bot" ∧ m.content = str visualizationAck) :=
  ⟨rfl, visualization_appends_ack sampleEnv sampleVisualization sampleState rfl⟩

/-- Counterexample to C2 as stated: the envelope
`{type: "visualization", answer: "", data: []}` has its answer field present, yet the
dispatcher appends one entry only, the acknowledgement. -/
theorem visualization_empty_answer_one_entry :
    getProp emptyAnswerVisualization "type" = .ok (str "visualization") ∧
    getProp emptyAnswerVisualization "answer" = .ok (str "") ∧
    (dispatched sampleEnv emptyAnswerVisualization ChatState.initial).messages.length =
      ChatState.initial.messages.length + 1 ∧
    (dispatched sampleEnv emptyAnswerVisualization ChatState.initial).messages.map
      (fun m => toStr m.content) = [visualizationAck] :=
  ⟨rfl, rfl, rfl, rfl⟩

/-- C3. For an envelope of type `visualization`, after dispatch the split view is active
whatever it was before, and the stored dashboard data is the data sequence of the
envelope, the empty sequence when the data field is absent. -/
theorem visualization_activates_dashboard (env : Env) (data : JsVal) (s : ChatState)
    (htype : getProp data "type" = .ok (str "visualization")) :
    (dispatched env data s).isSplitView = true ∧
    (∀ records, getProp data "data" = .ok (arr records) →
      (dispatched env data s).dashData = arr records) ∧
    (getProp data "data" = .ok undefined → (dispatched env data s).dashData = arr []) := by
  obtain ⟨answer, ha⟩ := getProp_ok_of_ok htype "answer"
  obtain ⟨d, hd⟩ := getProp_ok_of_ok htype "data"
  have e1 : ("visualization" == "answer") = false := by decide
  have e2 : ("visualization" == "visualization") = true := by decide
  refine ⟨?_, ?_, ?_⟩
  · simp only [dispatched, dispatchEnvelope, htype, ha, hd, strictEqStr, e1, e2]
    cases answer.truthy <;> simp [ChatState.push]
  · intro records hr
    rw [hr] at hd
    cases hd
    simp only [dispatched, dispatchEnvelope, htype, ha, hr, strictEqStr, e1, e2]
    cases answer.truthy <;> simp [ChatState.push, orElse, truthy]
  · intro hr
    rw [hr] at hd
    cases hd
    simp only [dispatched, dispatchEnvelope, htype, ha, hr, strictEqStr, e1, e2]
    cases answer.truthy <;> simp [ChatState.push, orElse, truthy]

/-- Witness of C3: from a state whose split view is off, the sample visualization
envelope turns it on and stores its two records. -/
theorem visualization_activates_dashboard_witness :
    getProp sampleVisualization "type" = .ok (str "visualization") ∧
    sampleState.isSplitView = false ∧
    (dispatched sampleEnv sampleVisualization sampleState).isSplitView = true ∧
    (dispatched sampleEnv sampleVisualization sampleState).dashData = arr sampleRecords :=
  ⟨rfl, rfl,
    (visualization_activates_dashboard sampleEnv sampleVisualization sampleState rfl).1,
    (visualization_activates_dashboard sampleEnv sampleVisualization sampleState rfl).2.1
      sampleRecords rfl⟩

/-- C4. For an envelope of type `answer` the dispatcher appends exactly one entry at the
end of the transcript, with sender `bot` and the answer field as content, without
throwing and without changing the split view or the dashboard data. -/
theorem answer_appends_one_bot_entry (env : Env) (data : JsVal) (s : ChatState)
    (htype : getProp data "type" = .ok (str "answer")) :
    ∃ answer m, getProp data "answer" = .ok answer ∧
      (dispatched env data s).messages = s.messages ++ [m] ∧
      m.sender = "bot" ∧ m.content = answer ∧
      (dispatchEnvelope env data s).thrown = none ∧
      (dispatched env data s).isSplitView = s.isSplitView ∧
      (dispatched env data s).dashData = s.dashData := by
  obtain ⟨answer, ha⟩ := getProp_ok_of_ok htype "answer"
  refine ⟨answer, botMessage env 0 1 answer, ha, ?_⟩
  have e1 : ("answer" == "answer") = true := by decide
  simp [dispatched, dispatchEnvelope, htype, ha, strictEqStr, e1, ChatState.push, botMessage]

/-- Witness of C4 on an answer envelope. -/
theorem answer_appends_one_bot_entry_witness :
    getProp answerEnvelope "type" = .ok (str "answer") ∧
    ∃ answer m, getProp answerEnvelope "answer" = .ok answer ∧
      (dispatched sampleEnv answerEnvelope sampleState).messages =
        sampleState.messages ++ [m] ∧
      m.sender = "bot" ∧ m.content = answer ∧
      (dispatchEnvelope sampleEnv answerEnvelope sampleState).thrown = none ∧
      (dispatched sampleEnv answerEnvelope sampleState).isSplitView =
        sampleState.isSplitView ∧
      (dispatched sampleEnv answerEnvelope sampleState).dashData = sampleState.dashData :=
  ⟨rfl, answer_appends_one_bot_entry sampleEnv answerEnvelope sampleState rfl⟩

/-- C5. For an envelope whose type field is missing, unreadable or any value other than
`answer`, `visualization` and `table`, the dispatcher leaves the whole state as it was:
the transcript, the split-view flag and the dashboard data. -/
theorem unrecognized_type_is_noop (env : Env) (data : JsVal) (s : ChatState)
    (h₁ : getProp data "type" ≠ .ok (str "answer"))
    (h₂ : getProp data "type" ≠ .ok (str "visualization"))
    (h₃ : getProp data "type" ≠ .ok (str "table")) :
    dispatched env data s = s := by
  unfold dispatched dispatchEnvelope
  cases hty : getProp data "type" with
  | error e => rfl
  | ok ty =>
    rw [hty] at h₁ h₂ h₃
    cases ty with
    | str t =>
      have n1 : (t == "answer") = false := by
        simp only [beq_eq_false_iff_ne]; intro h; exact h₁ (by rw [h])
      have n2 : (t == "visualization") = false := by
        simp only [beq_eq_false_iff_ne]; intro h; exact h₂ (by rw [h])
      have n3 : (t == "table") = false := by
        simp only [beq_eq_false_iff_ne]; intro h; exact h₃ (by rw [h])
      simp [strictEqStr, n1, n2, n3]
    | _ => simp [strictEqStr]

/-- Witness of C5 on an envelope of type `chart`. -/
theorem unrecognized_type_is_noop_witness :
    getProp unknownEnvelope "type" = .ok (str "chart") ∧
    dispatched sampleEnv unknownEnvelope sampleState = sampleState :=
  ⟨rfl, unrecognized_type_is_noop sampleEnv unknownEnvelope sampleState
    (by simp [getProp, unknownEnvelope, List.lookup])
    (by simp [getProp, unknownEnvelope, List.lookup])
    (by simp [getProp, unknownEnvelope, List.lookup])⟩

/-- C6, as amended. For a non-empty record sequence the chart derivation emits one
series per present metric key, a bar for `min` and `max` and a line for `avg`, and, when
some condition is present, one value axis per present condition, in the order
temperature, salinity, pressure, named with its unit; when no condition is present it
emits the single default axis `Value` and no series.  Keys outside the nine metrics
produce no series and no axis of their own, so there are at most three condition axes
and nine series. -/
theorem chart_axes_and_series (src : List JsVal) (hne : src ≠ []) :
    yAxes src = (conditionOrder.filter (conditionPresent src)).map unitAxis ∧
    (series src).map (fun s => (s.name, s.type)) =
      (metricOrder.filter (fun m => metricPresent src m.1 m.2)).map
        (fun m => (displayWord m.1 ++ " " ++ displayWord m.2, seriesKind m.2)) ∧
    (yAxes src).length ≤ 3 ∧ (series src).length ≤ 9 ∧
    (deriveChart (arr src)).series = some (series src) ∧
    (conditionOrder.filter (conditionPresent src) ≠ [] →
      (deriveChart (arr src)).yAxis =
        some ((conditionOrder.filter (conditionPresent src)).map unitAxis)) ∧
    (conditionOrder.filter (conditionPresent src) = [] →
      (deriveChart (arr src)).yAxis = some [defaultAxis] ∧
      (deriveChart (arr src)).series = some []) := by
  refine ⟨yAxes_eq src, ?_, ?_, ?_, emitted_series src hne, ?_, ?_⟩
  · rw [series_eq, List.map_map]
    apply List.map_congr_left
    intro m hm
    exact seriesFor_name_type src m (List.mem_of_mem_filter hm)
  · rw [yAxes_eq, List.length_map]
    exact (List.length_filter_le _ _).trans (by decide)
  · rw [series_eq, List.length_map]
    exact (List.length_filter_le _ _).trans (by decide)
  · intro hf
    have hy : (yAxes src).length ≠ 0 := by
      intro h0
      exact hf ((yAxes_eq_nil_iff src).1 (List.length_eq_zero.1 h0))
    rw [emitted_yAxis src hne, if_pos hy, yAxes_eq]
  · intro hf
    refine ⟨(default_axis_iff (arr src)).2 ⟨src, rfl, hne, hf⟩, ?_⟩
    rw [emitted_series src hne, series_eq_nil_of_no_condition src hf]

/-- Witness of the amended C6: two records with the keys `temperature_min`,
`temperature_avg`, `oxygen_max` and `pressure_max` give the temperature and pressure
axes and three series. -/
theorem chart_axes_and_series_witness :
    sampleRecords ≠ [] ∧
    conditionOrder.filter (conditionPresent sampleRecords) ≠ [] ∧
    (deriveChart (arr sampleRecords)).yAxis =
      some ((conditionOrder.filter (conditionPresent sampleRecords)).map unitAxis) ∧
    (conditionOrder.filter (conditionPresent sampleRecords)).map unitAxis =
      [⟨"value", "Temperature (°C)", "\x7bvalue\x7d °C"⟩,
       ⟨"value", "Pressure (dbar)", "\x7bvalue\x7d dbar"⟩] ∧
    (series sampleRecords).map (fun s => (s.name, s.type)) =
      [("Temperature Min", "bar"), ("Pressure Max", "bar"), ("Temperature Avg", "line")] :=
  ⟨by simp [sampleRecords], by decide,
    (chart_axes_and_series sampleRecords (by simp [sampleRecords])).2.2.2.2.2.1 (by decide),
    by decide, by decide⟩

/-- Counterexample to C6 as stated: one record whose only measurement key is
`oxygen_max` has no present condition, yet the emitted option has one value axis, the
default axis `Value`. -/
theorem no_condition_chart_has_default_axis :
    noConditionRecords ≠ [] ∧
    conditionOrder.filter (conditionPresent noConditionRecords) = [] ∧
    (deriveChart (arr noConditionRecords)).yAxis = some [defaultAxis] ∧
    (deriveChart (arr noConditionRecords)).yAxis.map List.length = some 1 := by
  refine ⟨by simp [noConditionRecords], by decide, by decide, by decide⟩

/-- C7, as amended. For the empty record sequence, or a data value that is not an array,
the chart derivation yields the option that holds the title `No data to visualize` and
nothing else: no series, no value axis, no category axis.  The single default value axis
is emitted exactly when the record sequence is non-empty and no condition is present,
and then the series list is empty. -/
theorem empty_chart_is_title_only (data : JsVal) (h : ∀ items, data = arr items → items = []) :
    deriveChart data = noDataOption ∧
    noDataOption.series = none ∧ noDataOption.yAxis = none ∧ noDataOption.xAxis = none ∧
    (∀ src : List JsVal, src ≠ [] → conds src = [] →
      (deriveChart (arr src)).yAxis = some [defaultAxis] ∧
      (deriveChart (arr src)).series = some []) ∧
    (∀ d : JsVal, (deriveChart d).yAxis = some [defaultAxis] ↔
      ∃ src, d = arr src ∧ src ≠ [] ∧
        conditionOrder.filter (conditionPresent src) = []) := by
  refine ⟨?_, rfl, rfl, rfl, ?_, default_axis_iff⟩
  · cases data with
    | arr items => rw [h items rfl]; rfl
    | _ => rfl
  · intro src hne hc
    obtain ⟨hs, hl⟩ := chartSource_of_ne_nil src hne
    simp [deriveChart, hs, hl, yAxes, series, hc, statOrder]

/-- Witness of the amended C7: a data prop that is not given yields the title-only
option, which has no default axis, and a record without any condition yields the
default axis. -/
theorem empty_chart_is_title_only_witness :
    (∀ items, JsVal.undefined = arr items → items = []) ∧
    deriveChart undefined = noDataOption ∧
    (deriveChart undefined).yAxis ≠ some [defaultAxis] ∧
    (deriveChart (arr noConditionRecords)).yAxis = some [defaultAxis] :=
  ⟨fun _ h => (nomatch h),
    (empty_chart_is_title_only undefined (fun _ h => (nomatch h))).1,
    fun hy =>
      match ((empty_chart_is_title_only undefined (fun _ h => (nomatch h))).2.2.2.2.2
        undefined).1 hy with
      | ⟨_, hd, _⟩ => (nomatch hd),
    ((empty_chart_is_title_only undefined (fun _ h => (nomatch h))).2.2.2.2.2
      (arr noConditionRecords)).2
      ⟨noConditionRecords, rfl, by simp [noConditionRecords], by decide⟩⟩

/-- Counterexample to C7 as stated: for the empty record sequence the derived option has
no series list and no value-axis list at all, only the title. -/
theorem empty_chart_has_no_series :
    (deriveChart (arr [])).series = none ∧ (deriveChart (arr [])).yAxis = none ∧
    (deriveChart (arr [])).title = "No data to visualize" :=
  ⟨rfl, rfl, rfl⟩

/-- C8. For a non-empty record sequence the x-axis category list has one entry per
record, in input order: the date part of the datetime when that is a non-empty string
(the text before the first `T`, or before the first space when there is no `T`; the
whole string when that part is empty), and `Float <float_id>` for every other record. -/
theorem categories_follow_records (src : List JsVal) (hne : src ≠ []) :
    (deriveChart (arr src)).xAxis =
      some [{ type := "category", data := src.map categoryLabel,
              axisPointerType := "shadow" }] ∧
    categories src = src.map categoryLabel ∧
    (categories src).length = src.length := by
  have hc : categories src = src.map categoryLabel := by
    simp [categories, category_eq_label]
  obtain ⟨hs, hl⟩ := chartSource_of_ne_nil src hne
  refine ⟨?_, hc, by simp [hc]⟩
  simp only [deriveChart, hs, hl, if_false, hc]

/-- Witness of C8: the first sample record has an ISO datetime, the second has none. -/
theorem categories_follow_records_witness :
    sampleRecords ≠ [] ∧
    categories sampleRecords = sampleRecords.map categoryLabel ∧
    sampleRecords.map categoryLabel = ["2024-01-05", "Float 8"] :=
  ⟨by simp [sampleRecords], (categories_follow_records sampleRecords (by simp [sampleRecords])).2.1,
    by decide⟩

/-- C9. For a map click at `(lat, lng)`, both of magnitude below `10 ^ 21` as every map
position is, with the chat-input setter registered, the text written into the chat input
is `lat `, then `lat` with six decimal places, then ` lon `, then `lng` with six decimal
places; a click at (28.1, 77.2) writes `lat 28.100000 lon 77.200000`. -/
theorem map_click_writes_coordinates (numberToString : Num → String) (lat lng : Num)
    (t : ClickTarget) (hreg : t.setterRegistered = true)
    (hlat : |lat.toRat| < 10 ^ 21) (hlng : |lng.toRat| < 10 ^ 21) :
    (onMapClick numberToString lat lng t).inputMessage =
      "lat " ++ toFixed numberToString 6 lat ++ " lon " ++ toFixed numberToString 6 lng ∧
    SixPlaces lat (toFixed numberToString 6 lat) ∧
    SixPlaces lng (toFixed numberToString 6 lng) ∧
    (onMapClick numberToString lat281 lng772 t).inputMessage =
      "lat 28.100000 lon 77.200000" := by
  refine ⟨?_, toFixed_six numberToString lat hlat, toFixed_six numberToString lng hlng, ?_⟩
  · simp [onMapClick, hreg]
  · have h1 : toFixed numberToString 6 lat281 = "28.100000" := rfl
    have h2 : toFixed numberToString 6 lng772 = "77.200000" := rfl
    simp only [onMapClick, hreg, if_true, h1, h2]
    rfl

/-- Witness of C9 at the position (28.1, 77.2). -/
theorem map_click_writes_coordinates_witness :
    sampleTarget.setterRegistered = true ∧
    |lat281.toRat| < 10 ^ 21 ∧ |lng772.toRat| < 10 ^ 21 ∧
    (onMapClick sampleNumberToString lat281 lng772 sampleTarget).inputMessage =
      "lat 28.100000 lon 77.200000" :=
  ⟨rfl, lat281_in_range, lng772_in_range,
    (map_click_writes_coordinates sampleNumberToString lat281 lng772 sampleTarget rfl
      lat281_in_range lng772_in_range).2.2.2⟩

/-- C10, as amended. The headers built by `getAuthHeaders` always carry
`Content-Type: application/json`; they are followed by `Authorization: Bearer <token>`
when the stored token is a non-empty string, and by nothing when no token is stored or
the stored token is the empty string. -/
theorem auth_headers (st : Storage) :
    (getAuthHeaders st).lookup "Content-Type" = some "application/json" ∧
    (∀ token, st.getItem "auth_token" = some token → token ≠ "" →
      getAuthHeaders st =
        [("Content-Type", "application/json"), ("Authorization", "Bearer " ++ token)]) ∧
    ((st.getItem "auth_token" = none ∨ st.getItem "auth_token" = some "") →
      getAuthHeaders st = [("Content-Type", "application/json")]) := by
  refine ⟨?_, ?_, ?_⟩
  · simp [getAuthHeaders, List.lookup]
  · intro token h hne
    simp [getAuthHeaders, h, hne]
  · rintro (h | h) <;> simp [getAuthHeaders, h]

/-- Witness of the amended C10 on the token the login stores. -/
theorem auth_headers_witness :
    Storage.getItem [("auth_token", "mock_jwt_token")] "auth_token" = some "mock_jwt_token" ∧
    "mock_jwt_token" ≠ "" ∧
    getAuthHeaders [("auth_token", "mock_jwt_token")] =
      [("Content-Type", "application/json"), ("Authorization", "Bearer mock_jwt_token")] :=
  ⟨rfl, by decide,
    (auth_headers [("auth_token", "mock_jwt_token")]).2.1 "mock_jwt_token" rfl (by decide)⟩

/-- Counterexample to C10 as stated: with the empty string stored under `auth_token` a
token is held, yet the headers carry no `Authorization` entry. -/
theorem empty_token_sends_no_authorization :
    Storage.getItem [("auth_token", "")] "auth_token" = some "" ∧
    (getAuthHeaders [("auth_token", "")]).lookup "Authorization" = none := by
  decide

/-- C11, evaluated on the code. With the token `mock_jwt_token` held in session storage,
the request that `handleSendMessage` issues for a message goes to the same URL as the
request of `ApiService.sendMessage` but carries no `Authorization` header, while the
request of `ApiService.sendMessage` carries `Bearer mock_jwt_token`; the headers of the
request of `handleSendMessage` are the content type alone, whatever the message. -/
theorem chat_send_omits_authorization :
    Storage.getItem sampleStorage "auth_token" = some "mock_jwt_token" ∧
    (chatSendRequest sampleEnv "hello").url =
      (ApiService.sendMessageRequest sampleEnv sampleStorage
        (obj [("message", str "hello")])).url ∧
    (chatSendRequest sampleEnv "hello").headers.lookup "Authorization" = none ∧
    (ApiService.sendMessageRequest sampleEnv sampleStorage
        (obj [("message", str "hello")])).headers.lookup "Authorization" =
      some "Bearer mock_jwt_token" ∧
    ∀ (env : Env) (content : String),
      (chatSendRequest env content).headers = [("Content-Type", "application/json")] :=
  ⟨rfl, rfl, rfl, by decide, fun _ _ => rfl⟩

/-- C12. For every call of `ApiService` and every response: when the `ok` flag is false
the call fails with the error whose message is the fixed string of its call site,
whatever the status code and the body; when the flag is true the call does not fail with
that error. -/
theorem api_failure_message (call : ApiCall) (env : Env) (st : Storage) (r : Response) :
    (r.ok = false →
      call.run env st (fun _ => .responded r) = .error (.error (callSiteMessage call))) ∧
    (r.ok = true →
      call.run env st (fun _ => .responded r) ≠ .error (.error (callSiteMessage call))) := by
  constructor
  · intro h
    cases call <;> simp [ApiCall.run, ApiService.login, ApiService.signup,
      ApiService.getChatHistory, ApiService.sendMessage, ApiService.getUserProfile,
      ApiService.updateUserProfile, ApiService.getConversations, ApiService.createConversation,
      ApiService.deleteConversation, ApiService.getConversationMessages,
      ApiService.refreshToken, ApiService.logout, h, callSiteMessage]
  · intro h
    have hj : ∀ m, r.json ≠ .error (.error m) := by
      intro m
      unfold Response.json
      cases r.body <;> simp
    cases call <;> simp [ApiCall.run, ApiService.login, ApiService.signup,
      ApiService.getChatHistory, ApiService.sendMessage, ApiService.getUserProfile,
      ApiService.updateUserProfile, ApiService.getConversations, ApiService.createConversation,
      ApiService.deleteConversation, ApiService.getConversationMessages,
      ApiService.refreshToken, ApiService.logout, h, callSiteMessage, hj]

/-- Witness of C12: a login answered with status 401 fails with `Login failed`. -/
theorem api_failure_message_witness :
    unauthorizedResponse.ok = false ∧
    (ApiCall.login (obj [("email", str "a@b.c"), ("password", str "x")])).run sampleEnv
        sampleStorage (fun _ => .responded unauthorizedResponse) =
      .error (.error "Login failed") :=
  ⟨rfl, (api_failure_message (.login (obj [("email", str "a@b.c"), ("password", str "x")]))
    sampleEnv sampleStorage unauthorizedResponse).1 rfl⟩

/-- C13. For every prior transcript and every response envelope, of any type, the
transcript after dispatch is the prior transcript followed by the appended entries: no
prior entry is changed, moved or removed.  At most two entries are appended, all from
the bot. -/
theorem dispatch_only_appends (env : Env) (data : JsVal) (s : ChatState) :
    ∃ added : List Message, (dispatched env data s).messages = s.messages ++ added ∧
      added.length ≤ 2 ∧ ∀ m ∈ added, m.sender = "bot" := by
  unfold dispatched dispatchEnvelope
  cases getProp data "type" with
  | error e => exact ⟨[], by simp⟩
  | ok ty =>
    simp only
    split_ifs
    · cases getProp data "answer" with
      | error e => exact ⟨[], by simp⟩
      | ok answer => exact ⟨[botMessage env 0 1 answer], by simp [ChatState.push, botMessage]⟩
    · cases getProp data "data" with
      | error e => exact ⟨[], by simp⟩
      | ok d =>
        cases getProp data "answer" with
        | error e => exact ⟨[], by simp⟩
        | ok answer =>
          simp only
          split_ifs
          · exact ⟨[botMessage env 0 1 answer, botMessage env 2 2 (str visualizationAck)],
              by simp [ChatState.push, botMessage]⟩
          · exact ⟨[botMessage env 0 2 (str visualizationAck)],
              by simp [ChatState.push, botMessage]⟩
    · cases getProp data "data" with
      | error e => exact ⟨[], by simp⟩
      | ok d =>
        simp only
        cases tableHtml (tableRows d) with
        | error e => exact ⟨[], by simp⟩
        | ok html => exact ⟨[botMessage env 0 1 (str html)], by simp [ChatState.push, botMessage]⟩
    · exact ⟨[], by simp⟩

/-- C14. For an envelope of type `table` whose data is absent, `null` or an array without
rows, the dispatcher does not throw: the column set is empty and exactly one bot entry is
appended, whose content is the table markup with no header cell and no body row. -/
theorem empty_table_renders_shell (env : Env) (data : JsVal) (s : ChatState)
    (htype : getProp data "type" = .ok (str "table"))
    (hdata : getProp data "data" = .ok undefined ∨ getProp data "data" = .ok null ∨
      getProp data "data" = .ok (arr [])) :
    tableColumnOrder data = .ok [] ∧
    dispatchEnvelope env data s =
      { state := s.push (botMessage env 0 1 (str emptyTableShell)), thrown := none } ∧
    (dispatched env data s).messages =
      s.messages ++ [botMessage env 0 1 (str emptyTableShell)] ∧
    (botMessage env 0 1 (str emptyTableShell)).sender = "bot" := by
  have e1 : ("table" == "answer") = false := by decide
  have e2 : ("table" == "visualization") = false := by decide
  have e3 : ("table" == "table") = true := by decide
  have hrows : ∀ d, (d = undefined ∨ d = null ∨ d = arr []) → tableRows d = arr [] := by
    rintro d (h | h | h) <;> subst h <;> rfl
  have hcols : tableColumns (arr []) = .ok [] := rfl
  have hhtml := tableHtml_empty
  obtain ⟨d, hd, hd3⟩ : ∃ d, getProp data "data" = .ok d ∧
      (d = undefined ∨ d = null ∨ d = arr []) := by
    rcases hdata with h | h | h
    · exact ⟨_, h, Or.inl rfl⟩
    · exact ⟨_, h, Or.inr (Or.inl rfl)⟩
    · exact ⟨_, h, Or.inr (Or.inr rfl)⟩
  have hr := hrows d hd3
  refine ⟨?_, ?_, ?_, rfl⟩
  · simp [tableColumnOrder, hd, hr, hcols, orderedColumns, preferredOrder, condCols,
      possibleConds]
  · simp only [dispatchEnvelope, htype, hd, strictEqStr, e1, e2, e3, hr, hhtml]
    simp
  · simp only [dispatched, dispatchEnvelope, htype, hd, strictEqStr, e1, e2, e3, hr, hhtml]
    simp [ChatState.push]

/-- Witness of C14 on a table envelope without a data field. -/
theorem empty_table_renders_shell_witness :
    getProp emptyTable "type" = .ok (str "table") ∧
    getProp emptyTable "data" = .ok undefined ∧
    tableColumnOrder emptyTable = .ok [] ∧
    (dispatched sampleEnv emptyTable sampleState).messages =
      sampleState.messages ++ [botMessage sampleEnv 0 1 (str emptyTableShell)] :=
  ⟨rfl, rfl, (empty_table_renders_shell sampleEnv emptyTable sampleState rfl (Or.inl rfl)).1,
    (empty_table_renders_shell sampleEnv emptyTable sampleState rfl (Or.inl rfl)).2.2.1⟩

/-- C15. The view starts as `charts`; the toggle maps `charts` to `map` and `map` to
`charts` whether or not a callback is given; every view the toggle reaches is one of the
two, and toggling it twice gives it back. -/
theorem toggle_twice_returns (onSwitchToMap₁ onSwitchToMap₂ : Bool) (view : String)
    (hview : ReachableView view) :
    initialView = "charts" ∧
    (handleToggleView onSwitchToMap₁ "charts").1 = "map" ∧
    (handleToggleView onSwitchToMap₁ "map").1 = "charts" ∧
    (view = "charts" ∨ view = "map") ∧
    (handleToggleView onSwitchToMap₂ (handleToggleView onSwitchToMap₁ view).1).1 = view := by
  have hcm : view = "charts" ∨ view = "map" := by
    induction hview with
    | initial => exact Or.inl rfl
    | toggle cb v _ ih =>
      rcases ih with h | h <;> subst h
      · exact Or.inr rfl
      · exact Or.inl rfl
  refine ⟨rfl, rfl, rfl, hcm, ?_⟩
  rcases hcm with h | h <;> subst h <;> rfl

/-- Witness of C15 on the view reached by one toggle. -/
theorem toggle_twice_returns_witness :
    ReachableView "map" ∧
    (handleToggleView false (handleToggleView false "map").1).1 = "map" :=
  ⟨ReachableView.toggle false initialView ReachableView.initial,
    (toggle_twice_returns false false "map"
      (ReachableView.toggle false initialView ReachableView.initial)).2.2.2.2⟩

/-- C16. A submit, through `handleSubmit` or through `window.__submitChatInput`, calls
`onSendMessage` exactly when the busy flag is false and the input is non-empty after
trimming, that is when it has a character that is not white space; the message passed
is the trimmed input; when nothing is sent the input is left as it was. -/
theorem submit_sends_trimmed_input (resolves loading : Bool) (st : ChatInput) :
    ((handleSubmit resolves loading st).sent.isSome = true ↔
      (loading = false ∧ jsTrim st.inputMessage ≠ "")) ∧
    ((submitChatInput loading st).sent.isSome = true ↔
      (loading = false ∧ jsTrim st.inputMessage ≠ "")) ∧
    (jsTrim st.inputMessage ≠ "" ↔ ∃ c ∈ st.inputMessage.data, isTrimmable c = false) ∧
    (∀ m, (handleSubmit resolves loading st).sent = some m → m = jsTrim st.inputMessage) ∧
    (∀ m, (submitChatInput loading st).sent = some m → m = jsTrim st.inputMessage) ∧
    ((handleSubmit resolves loading st).sent = none →
      (handleSubmit resolves loading st).state = st) ∧
    ((submitChatInput loading st).sent = none → (submitChatInput loading st).state = st) := by
  have hex : jsTrim st.inputMessage ≠ "" ↔
      ∃ c ∈ st.inputMessage.data, isTrimmable c = false := by
    rw [Ne, jsTrim_eq_empty_iff]
    simp
  refine ⟨?_, ?_, hex, ?_, ?_, ?_, ?_⟩
  all_goals
    by_cases ht : jsTrim st.inputMessage = "" <;> cases loading <;>
      simp [handleSubmit, submitChatInput, ht]

/-- Witness of C16: an idle chat sends the text without the surrounding white space, and
a busy chat sends nothing and keeps the input. -/
theorem submit_sends_trimmed_input_witness :
    (handleSubmit true false sampleInput).sent = some "lat 28.100000 lon 77.200000" ∧
    (submitChatInput true sampleInput).sent = none ∧
    (submitChatInput true sampleInput).state = sampleInput :=
  ⟨by decide, by decide,
    (submit_sends_trimmed_input true true sampleInput).2.2.2.2.2.2 (by decide)⟩

/-- C17. When the backend request fails, by a transport error or by a status outside 200
to 299, `handleSendMessage` leaves the transcript equal to the prior transcript followed
by the one user entry with the submitted content, leaves the split-view flag and the
dashboard data as they were, ends with the busy flag false, and logs the failure. -/
theorem failed_request_keeps_user_entry (env : Env) (net : Network) (content : String)
    (s : ChatState)
    (hfail : net (chatSendRequest env content) = .rejected ∨
      ∃ r, net (chatSendRequest env content) = .responded r ∧ r.ok = false) :
    (handleSendMessage env net content s).state.messages =
      s.messages ++ [userMessage env content] ∧
    (userMessage env content).sender = "user" ∧
    (userMessage env content).content = str content ∧
    (handleSendMessage env net content s).state.isSplitView = s.isSplitView ∧
    (handleSendMessage env net content s).state.dashData = s.dashData ∧
    (handleSendMessage env net content s).state.loading = false ∧
    (handleSendMessage env net content s).logged ≠ none := by
  rcases hfail with h | ⟨r, h, hr⟩
  · simp [handleSendMessage, h, ChatState.push, ChatState.setLoading, userMessage]
  · simp [handleSendMessage, h, hr, ChatState.push, ChatState.setLoading, userMessage]

/-- Witness of C17 on a backend that answers with status 500. -/
theorem failed_request_keeps_user_entry_witness :
    (∃ r, failingNetwork (chatSendRequest sampleEnv "hello") = .responded r ∧ r.ok = false) ∧
    (handleSendMessage sampleEnv failingNetwork "hello" sampleState).state.messages =
      sampleState.messages ++ [userMessage sampleEnv "hello"] ∧
    (handleSendMessage sampleEnv failingNetwork "hello" sampleState).state.loading = false :=
  ⟨⟨_, rfl, rfl⟩,
    (failed_request_keeps_user_entry sampleEnv failingNetwork "hello" sampleState
      (Or.inr ⟨_, rfl, rfl⟩)).1,
    (failed_request_keeps_user_entry sampleEnv failingNetwork "hello" sampleState
      (Or.inr ⟨_, rfl, rfl⟩)).2.2.2.2.2.1⟩

/-- C18. For a first record with pairwise distinct keys, the ordered column list of the
table branch is a permutation of the keys of the record: it has no repeated entry, a
name is in it exactly when it is a key, and each key occurs once. -/
theorem ordered_columns_permutation (data : JsVal) (fields : List (String × JsVal))
    (rest : List JsVal)
    (hdata : getProp data "data" = .ok (arr (obj fields :: rest)))
    (hnd : (fields.map Prod.fst).Nodup) :
    ∃ cols, tableColumnOrder data = .ok cols ∧
      cols = orderedColumns (fields.map Prod.fst) ∧
      cols.Perm (fields.map Prod.fst) ∧ cols.Nodup ∧
      (∀ c, c ∈ cols ↔ c ∈ fields.map Prod.fst) ∧
      (∀ c, cols.count c = if c ∈ fields.map Prod.fst then 1 else 0) := by
  have hc := tableColumns_cons fields rest
  have hp : (orderedColumns (fields.map Prod.fst)).Perm (fields.map Prod.fst) := by
    rw [orderedColumns_eq_spec]
    exact specColumnOrder_perm _ hnd
  have hn : (orderedColumns (fields.map Prod.fst)).Nodup := hp.nodup_iff.2 hnd
  refine ⟨orderedColumns (fields.map Prod.fst), ?_, rfl, hp, hn, fun c => hp.mem_iff, ?_⟩
  · simp [tableColumnOrder, hdata, hc]
  · intro c
    rw [hp.count_eq]
    by_cases hm : c ∈ fields.map Prod.fst
    · rw [if_pos hm]
      exact List.count_eq_one_of_mem hnd hm
    · rw [if_neg hm]
      exact List.count_eq_zero_of_not_mem hm

/-- Witness of C18 on the sample table. -/
theorem ordered_columns_permutation_witness :
    (["year", "pressure", "float_id", "zeta", "temperature"] : List String).Nodup ∧
    ∃ cols, tableColumnOrder sampleTable = .ok cols ∧
      cols.Perm ["year", "pressure", "float_id", "zeta", "temperature"] := by
  obtain ⟨cols, h1, -, h3, -⟩ := ordered_columns_permutation sampleTable _ _
    (rfl : getProp sampleTable "data" = .ok (arr (obj _ :: _))) (by decide)
  exact ⟨by decide, cols, h1, h3⟩

/-- C19. For a non-empty record sequence the derived chart option is well-formed: the
data list of every series is as long as the record sequence and as the category list of
the x-axis, with `null` at the position of a record that lacks the measurement; and the
`yAxisIndex` of every series is an index into the emitted value-axis list, at which the
axis of the condition of the series stands. -/
theorem chart_option_well_formed (src : List JsVal) (hne : src ≠ []) :
    (deriveChart (arr src)).xAxis =
      some [{ type := "category", data := categories src, axisPointerType := "shadow" }] ∧
    (deriveChart (arr src)).series = some (series src) ∧
    (categories src).length = src.length ∧
    ∀ s ∈ series src,
      s.data.length = src.length ∧ s.data.length = (categories src).length ∧
      ∃ m ∈ metricOrder, metricPresent src m.1 m.2 = true ∧
        s.name = displayWord m.1 ++ " " ++ displayWord m.2 ∧
        (∀ (j : Nat) (item : JsVal), src[j]? = some item →
          recordHasKey item (m.1 ++ "_" ++ m.2) = false → s.data[j]? = some null) ∧
        ∃ (i : Nat) (axes : List YAxis), s.yAxisIndex = some i ∧
          (deriveChart (arr src)).yAxis = some axes ∧
          i < axes.length ∧ axes[i]? = some (unitAxis m.1) := by
  obtain ⟨hs, hl⟩ := chartSource_of_ne_nil src hne
  have hcat : (categories src).length = src.length := by simp [categories]
  refine ⟨?_, ?_, hcat, ?_⟩
  · simp only [deriveChart, hs, hl, if_false]
  · simp only [deriveChart, hs, hl, if_false]
  · intro s hsmem
    rw [series_eq, List.mem_map] at hsmem
    obtain ⟨m, hmf, rfl⟩ := hsmem
    obtain ⟨hm, hp⟩ := List.mem_filter.1 hmf
    have hdata : (seriesFor src m.2 m.1).data.length = src.length := by
      simp [seriesFor]
    refine ⟨hdata, hdata.trans hcat.symm, m, hm, hp, ?_, ?_, ?_⟩
    · exact congrArg Prod.fst (seriesFor_name_type src m hm)
    · intro j item hj hmiss
      have hnull := missing_measurement_is_null item _ (notIndex_metric m hm)
        (metric_key_ne_length m hm) hmiss
      simp only [seriesFor, List.getElem?_map, hj, Option.map_some']
      rw [hnull]
    · obtain ⟨hc, hco⟩ := mem_conds_of_metricPresent src m hm hp
      obtain ⟨i, hi, hget⟩ := condToAxis_lookup src m.1 hc
      have hax : (yAxes src)[i]? = some (unitAxis m.1) := by
        simp only [yAxes, List.getElem?_map, hget, Option.map_some']
        rw [axisFor_eq m.1 hco]
      have hlt : i < (yAxes src).length := by
        rcases Nat.lt_or_ge i (yAxes src).length with h | h
        · exact h
        · rw [List.getElem?_eq_none h] at hax
          cases hax
      have hy2 : (yAxes src).length ≠ 0 := by omega
      refine ⟨i, yAxes src, hi, ?_, hlt, hax⟩
      simp only [deriveChart, hs, hl, if_false, hy2, ne_eq, not_false_eq_true, if_true]

/-- Witness of C19 on the sample records: three series of two values each, the first
and the third on axis 0 (temperature), the second on axis 1 (pressure). -/
theorem chart_option_well_formed_witness :
    sampleRecords ≠ [] ∧
    (categories sampleRecords).length = sampleRecords.length ∧
    (series sampleRecords).map (fun s => (s.data.map toStr, s.yAxisIndex)) =
      [(["3.5", "null"], some 0), (["null", "1000"], some 1), (["4", "null"], some 0)] :=
  ⟨by simp [sampleRecords],
    (chart_option_well_formed sampleRecords (by simp [sampleRecords])).2.2.1, by decide⟩

end FloatChat
